import Mathlib

/-!
# Pace clock: debounced switches, display codec and mode state machine

A shallow embedding of `Button.h`, `ClockStateMachine.cpp` and `SegmentDisplay.cpp`.

* Machine integers are `Nat`/`Int` with explicit wrap-around (`u32sub`, `toU8`, `toI8`,
  `wrapI32`).
* Every call of `millis()` and every `digitalRead` is an explicit input: a handler receives
  the readings it takes in a `TickIn` record, one field per call site.
* Calls to the two collaborators are recorded in the state: `display` lists the arguments of
  every `display.setTime` call and `mesh` lists every payload given to `Mesh.publish`.
* C strings are `List Char`; `snprintf` and `sscanf` are modelled for the one format string
  the program uses.
* The round search of the countdown handler takes a bound `fuel` on the number of tests of
  its loop condition; `none` stands for a search that has not exited within that bound.
* `SegmentDisplay` is modelled down to the pixel buffer of the strip, separately from the
  state machine, which only records the `setTime` calls it makes.
-/

namespace PaceClock

/-! ## Machine arithmetic -/

/-- Subtraction of two `uint32_t` values, wrapping modulo `2^32`. -/
def u32sub (a b : Nat) : Nat :=
  (a % 4294967296 + 4294967296 - b % 4294967296) % 4294967296

/-- Conversion of an integer value to `uint32_t`. -/
def toU32 (x : Int) : Nat := (x % 4294967296).toNat

/-- Conversion of an integer value to `uint8_t`. -/
def toU8 (x : Int) : Nat := (x % 256).toNat

/-- Conversion of an integer value to `int8_t` (two's complement wrap). -/
def toI8 (x : Int) : Int := (x + 128) % 256 - 128

/-- Conversion of a `uint32_t` value to `int32_t` (two's complement wrap). -/
def toI32 (x : Nat) : Int :=
  if x % 4294967296 < 2147483648 then ((x % 4294967296 : Nat) : Int)
  else ((x % 4294967296 : Nat) : Int) - 4294967296

/-- The `int32_t` value of an integer result: the value itself when it is representable,
and its two's-complement wrap when it is not. -/
def wrapI32 (x : Int) : Int := (x + 2147483648) % 4294967296 - 2147483648

/-! ## Button.h -/

/-- The fields of `class Button` (the pin number is replaced by passing the raw reading). -/
structure Button where
  lastReading : Bool
  switchState : Bool
  stateChanged : Bool
  lastDebounceTime : Nat
deriving DecidableEq

/-- The member initialisers of `Button`. -/
def Button.init : Button :=
  { lastReading := false, switchState := false, stateChanged := false, lastDebounceTime := 0 }

/-- `Button::DEBOUNCE_DELAY`. -/
def Button.DEBOUNCE_DELAY : Nat := 50

/-- `Button::update(now)`; `currentlyPressed` is the value `digitalRead(pin)` returns. -/
def Button.update (b : Button) (now : Nat) (currentlyPressed : Bool) : Button :=
  let b1 : Button :=
    if currentlyPressed != b.lastReading then { b with lastDebounceTime := now } else b
  let b2 : Button :=
    if u32sub now b1.lastDebounceTime > Button.DEBOUNCE_DELAY then
      if currentlyPressed != b1.switchState then
        { b1 with switchState := currentlyPressed, stateChanged := true }
      else b1
    else b1
  { b2 with lastReading := currentlyPressed }

/-- `Button::isOn()`. -/
def Button.isOn (b : Button) : Bool := b.switchState

/-- `Button::stateJustChanged()`: the returned value and the button afterwards. -/
def Button.stateJustChanged (b : Button) : Bool × Button :=
  let changed := b.stateChanged
  (changed, { b with stateChanged := false })

/-- The button after a sequence of `update` calls, each given as `(now, raw reading)`. -/
def Button.run (b : Button) (evs : List (Nat × Bool)) : Button :=
  evs.foldl (fun s e => s.update e.1 e.2) b

/-- What the fields of a button record about the samples `pre` it has been updated with:
either no raw change was ever recorded (all samples read `false`, the debounced value is
still `false`), or `lastDebounceTime` is the time of a sample `e0` and every sample from
`e0` on equals `lastReading`. -/
def Button.Tracks (b : Button) (pre : List (Nat × Bool)) : Prop :=
  (b.lastDebounceTime = 0 ∧ b.switchState = false ∧ b.lastReading = false ∧
      ∀ x ∈ pre, x.2 = false) ∨
    (∃ old e0 mid, pre = old ++ e0 :: mid ∧ b.lastDebounceTime = e0.1 ∧
      e0.2 = b.lastReading ∧ ∀ x ∈ mid, x.2 = b.lastReading)

/-- One call made on a button by its owner. -/
inductive ButtonOp where
  | update (now : Nat) (raw : Bool)
  | isOn
  | stateJustChanged
deriving DecidableEq

/-- Runs a sequence of calls; returns the final button and the values returned by the
`stateJustChanged` calls, in order. -/
def Button.exec : Button → List ButtonOp → Button × List Bool
  | b, [] => (b, [])
  | b, ButtonOp.update now raw :: ops => Button.exec (b.update now raw) ops
  | b, ButtonOp.isOn :: ops => Button.exec b ops
  | b, ButtonOp.stateJustChanged :: ops =>
    let r := Button.exec (b.stateJustChanged).2 ops
    (r.1, (b.stateJustChanged).1 :: r.2)

/-- Whether some `update` call of the sequence changes the debounced value. -/
def Button.flips : Button → List ButtonOp → Bool
  | _, [] => false
  | b, ButtonOp.update now raw :: ops =>
    ((b.update now raw).switchState != b.switchState) || Button.flips (b.update now raw) ops
  | b, ButtonOp.isOn :: ops => Button.flips b ops
  | b, ButtonOp.stateJustChanged :: ops => Button.flips (b.stateJustChanged).2 ops

/-! ## Display codec: `snprintf` / `sscanf` with `"%d,%d,%d,%d,%d,%d,%d,%d"` -/

/-- The eight `int` values of one display update, in wire order. -/
structure RenderState where
  d1 : Int
  d2 : Int
  d3 : Int
  d4 : Int
  dot : Int
  r : Int
  g : Int
  b : Int
deriving DecidableEq

/-- A digit field is blank (`-1`) or a decimal digit. -/
def digitOk (d : Int) : Prop := -1 ≤ d ∧ d ≤ 9

/-- A colour channel is an 8-bit intensity. -/
def channelOk (c : Int) : Prop := 0 ≤ c ∧ c ≤ 255

/-- The value ranges of the wire format. -/
def RenderState.valid (x : RenderState) : Prop :=
  digitOk x.d1 ∧ digitOk x.d2 ∧ digitOk x.d3 ∧ digitOk x.d4 ∧
  (1 ≤ x.dot ∧ x.dot ≤ 5) ∧ channelOk x.r ∧ channelOk x.g ∧ channelOk x.b

instance (d : Int) : Decidable (digitOk d) := by unfold digitOk; infer_instance
instance (c : Int) : Decidable (channelOk c) := by unfold channelOk; infer_instance
instance (x : RenderState) : Decidable x.valid := by unfold RenderState.valid; infer_instance

/-- The render state shown while the clock is hidden. -/
def hidden : RenderState :=
  { d1 := -1, d2 := -1, d3 := -1, d4 := -1, dot := 1, r := 0, g := 0, b := 0 }

/-- The characters `printf("%d", n)` writes. -/
def fmtInt : Int → List Char
  | Int.ofNat n => Nat.toDigits 10 n
  | Int.negSucc n => '-' :: Nat.toDigits 10 (n + 1)

/-- The full output of the format `"%d,%d,%d,%d,%d,%d,%d,%d"`, before any truncation. -/
def formatDisplayData (d1 d2 d3 d4 dot r g b : Int) : List Char :=
  fmtInt d1 ++ ',' :: (fmtInt d2 ++ ',' :: (fmtInt d3 ++ ',' :: (fmtInt d4 ++ ',' ::
    (fmtInt dot ++ ',' :: (fmtInt r ++ ',' :: (fmtInt g ++ ',' :: fmtInt b))))))

/-- `ClockStateMachine::encodeDisplayData`: `snprintf(buffer, 32, ...)` keeps at most 31
characters of the formatted output (the 32nd byte is the terminator). -/
def encodeDisplayData (d1 d2 d3 d4 dot r g b : Int) : List Char :=
  (formatDisplayData d1 d2 d3 d4 dot r g b).take 31

/-- The C `isspace` test in the "C" locale. -/
def isSpace (c : Char) : Bool :=
  c == ' ' || c == '\t' || c == '\n' || c == '\x0b' || c == '\x0c' || c == '\r'

/-- Consumes a maximal run of decimal digits, accumulating their value. -/
def scanDigits : List Char → Nat → Nat × List Char
  | [], acc => (acc, [])
  | c :: cs, acc =>
    if c.isDigit then scanDigits cs (10 * acc + (c.toNat - 48)) else (acc, c :: cs)

/-- A non-empty run of decimal digits. -/
def scanUnsigned : List Char → Option (Nat × List Char)
  | [] => none
  | c :: cs => if c.isDigit then some (scanDigits (c :: cs) 0) else none

/-- The `%d` directive of `sscanf`: skips white space, reads an optional sign and at least
one decimal digit; `none` is a matching failure. The value is the mathematical integer
(the C standard leaves values outside `int` undefined). -/
def scanInt (s : List Char) : Option (Int × List Char) :=
  match s.dropWhile isSpace with
  | [] => none
  | c :: cs =>
    if c = '-' then (scanUnsigned cs).map (fun p => (-(p.1 : Int), p.2))
    else if c = '+' then (scanUnsigned cs).map (fun p => ((p.1 : Int), p.2))
    else (scanUnsigned (c :: cs)).map (fun p => ((p.1 : Int), p.2))

/-- The conversions `sscanf` performs for a format of `k` directives `%d` separated by
literal commas: the converted values in order, stopping at the first directive or
literal that fails to match. -/
def sscanfInts : Nat → List Char → List Int
  | 0, _ => []
  | k + 1, s =>
    match scanInt s with
    | none => []
    | some (v, rest) =>
      match k, rest with
      | 0, _ => [v]
      | _ + 1, [] => [v]
      | k' + 1, c :: rest' => if c = ',' then v :: sscanfInts (k' + 1) rest' else [v]

/-- `ClockStateMachine::decodeDisplayData`: the eight outputs when `sscanf` converted
eight fields (the function returns `true`), `none` when it returns `false`. -/
def decodeDisplayData (data : List Char) : Option RenderState :=
  match sscanfInts 8 data with
  | [d1, d2, d3, d4, dot, r, g, b] => some ⟨d1, d2, d3, d4, dot, r, g, b⟩
  | _ => none

/-- The value `scanDigits` accumulates over a run of digit characters. -/
def digitsValue (acc : Nat) (ds : List Char) : Nat :=
  ds.foldl (fun a c => 10 * a + (c.toNat - 48)) acc

/-- No decimal digit stands at the head of the list. -/
def NoDigitHead (rest : List Char) : Prop := ∀ c cs, rest = c :: cs → c.isDigit = false

/-! ## ClockStateMachine -/

/-- The four state handlers `stateHandler` can point to. -/
inductive Mode where
  | Sleep
  | ManualRainbow
  | ManualRed
  | Countdown50
deriving DecidableEq

/-- The fields of `ClockStateMachine`, the function-local statics of its handlers, and the
record of the calls made to the display and the mesh.

* `stateHandler = none` is the null pointer the member is initialised with.
* `firstEntry` is the static of `stateSleep`; `lastUpdateRainbow`, `lastUpdateRed` and
  `lastUpdateCountdown` are the statics `lastUpdate` of the three timed handlers.
* `display` holds the arguments of each `display.setTime` call, oldest first.
* `mesh` holds each payload passed to `Mesh.publish("meshTime", ...)`, oldest first.
* `rgbLed` holds the last arguments of `RGB.color`. -/
structure ClockStateMachine where
  powerSwitch : Button
  manualRainbowSwitch : Button
  manualRedSwitch : Button
  countdown50Switch : Button
  stateHandler : Option Mode
  startTime : Nat
  firstEntry : Bool
  lastUpdateRainbow : Nat
  lastUpdateRed : Nat
  lastUpdateCountdown : Nat
  display : List RenderState
  mesh : List (List Char)
  rgbLed : Option (Nat × Nat × Nat)
deriving DecidableEq

/-- The readings one pass of `loop()` takes from its environment: one field for each call
site of `millis()` and one for each `digitalRead`. -/
structure TickIn where
  /-- Value of `millis()` in `updateButtons`. -/
  tButtons : Nat
  /-- Value of `millis()` in `shouldUpdate`. -/
  tThrottle : Nat
  /-- Value of `millis()` in `stateManualRainbow` (wheel position). -/
  tWheel : Nat
  /-- Value of `millis()` in `updateTimeFromMillis` and in `stateCountdown50`. -/
  tRender : Nat
  /-- Value of `millis()` in `resetTime`. -/
  tReset : Nat
  /-- Value of `digitalRead(PIN_POWER)`. -/
  power : Bool
  /-- Value of `digitalRead(PIN_MANUAL_RAINBOW)`. -/
  rainbow : Bool
  /-- Value of `digitalRead(PIN_MANUAL_RED)`. -/
  red : Bool
  /-- Value of `digitalRead(PIN_COUNTDOWN_50)`. -/
  countdown : Bool
deriving DecidableEq

/-- `ClockStateMachine::refreshInterval`. -/
def refreshInterval : Nat := 500

/-- `ClockStateMachine::resetTime`; `now` is the value of `millis()`. -/
def resetTime (csm : ClockStateMachine) (now : Nat) : ClockStateMachine :=
  { csm with startTime := now }

/-- The constructor `ClockStateMachine::ClockStateMachine()`; `t0` is the value of
`millis()` read by its call of `resetTime`. The statics have their initial values. -/
def ClockStateMachine.init (t0 : Nat) : ClockStateMachine :=
  resetTime
    { powerSwitch := Button.init
      manualRainbowSwitch := Button.init
      manualRedSwitch := Button.init
      countdown50Switch := Button.init
      stateHandler := none
      startTime := 0
      firstEntry := true
      lastUpdateRainbow := 0
      lastUpdateRed := 0
      lastUpdateCountdown := 0
      display := []
      mesh := []
      rgbLed := none } t0

/-- `ClockStateMachine::setup`: the status LED turns blue and the Sleep handler is
installed (the strip initialisation and the start-up animation do not touch these fields). -/
def setup (csm : ClockStateMachine) : ClockStateMachine :=
  { csm with rgbLed := some (0, 0, 250), stateHandler := some Mode.Sleep }

/-- `shouldUpdate(lastUpdate, interval)`: the returned flag and the new `lastUpdate`;
`now` is the value of `millis()`. -/
def shouldUpdate (lastUpdate interval now : Nat) : Bool × Nat :=
  if u32sub now lastUpdate ≥ interval then (true, now) else (false, lastUpdate)

/-- `ClockStateMachine::recvMeshTime`. -/
def recvMeshTime (csm : ClockStateMachine) (data : List Char) : ClockStateMachine :=
  match decodeDisplayData data with
  | some x => { csm with display := csm.display ++ [x] }
  | none => csm

/-- `ClockStateMachine::pushTimeToMesh`. -/
def pushTimeToMesh (csm : ClockStateMachine) (d1 d2 d3 d4 dot r g b : Int) :
    ClockStateMachine :=
  let encodedData := encodeDisplayData d1 d2 d3 d4 dot r g b
  let csm1 := recvMeshTime csm encodedData
  { csm1 with mesh := csm1.mesh ++ [encodedData] }

/-- `ClockStateMachine::updateButtons`; `now` is the value of `millis()`. -/
def updateButtons (csm : ClockStateMachine) (i : TickIn) : ClockStateMachine :=
  let now := i.tButtons
  { csm with
    powerSwitch := csm.powerSwitch.update now i.power
    manualRainbowSwitch := csm.manualRainbowSwitch.update now i.rainbow
    manualRedSwitch := csm.manualRedSwitch.update now i.red
    countdown50Switch := csm.countdown50Switch.update now i.countdown }

/-- `ClockStateMachine::calculateRainbowColor`; `pos` is a `uint8_t`. -/
def calculateRainbowColor (pos : Nat) : Int × Int × Int :=
  if pos < 85 then
    ((pos : Int) * 3, 255 - (pos : Int) * 3, 0)
  else if pos < 170 then
    let pos1 := toU8 ((pos : Int) - 85)
    (255 - (pos1 : Int) * 3, 0, (pos1 : Int) * 3)
  else
    let pos1 := toU8 ((pos : Int) - 170)
    (0, (pos1 : Int) * 3, 255 - (pos1 : Int) * 3)

/-- `ClockStateMachine::updateTimeFromMillis`; `now` is the value of `millis()`. -/
def updateTimeFromMillis (csm : ClockStateMachine) (now : Nat) (r g b : Int) :
    ClockStateMachine :=
  let elapsedMs := u32sub now csm.startTime
  let elapsedSec := elapsedMs / 1000
  let rgb : Int × Int × Int := if elapsedSec ≥ 14400 then (0, 0, 0) else (r, g, b)
  let elapsedSec := elapsedSec % 3600
  let minutes := (elapsedSec / 60) % 256
  let seconds := (elapsedSec % 60) % 256
  let dotStatus : Int := if elapsedMs % 1000 < 500 then 3 else 4
  pushTimeToMesh csm (if minutes / 10 = 0 then -1 else ((minutes / 10 : Nat) : Int))
    ((minutes % 10 : Nat) : Int) ((seconds / 10 : Nat) : Int) ((seconds % 10 : Nat) : Int)
    dotStatus rgb.1 rgb.2.1 rgb.2.2

/-- `ClockStateMachine::stateSleep`. -/
def stateSleep (csm : ClockStateMachine) (i : TickIn) : ClockStateMachine :=
  let csm1 : ClockStateMachine :=
    if csm.firstEntry then
      { pushTimeToMesh csm (-1) (-1) (-1) (-1) 1 0 0 0 with
        rgbLed := some (0, 0, 10), firstEntry := false }
    else csm
  if csm1.powerSwitch.isOn then
    let csm2 : ClockStateMachine :=
      if csm1.manualRedSwitch.isOn then { csm1 with stateHandler := some Mode.ManualRed }
      else if csm1.countdown50Switch.isOn then
        { csm1 with stateHandler := some Mode.Countdown50 }
      else { csm1 with stateHandler := some Mode.ManualRainbow }
    { resetTime { csm2 with rgbLed := some (0, 10, 0) } i.tReset with firstEntry := true }
  else csm1

/-- The wheel position of `stateManualRainbow`: `(elapsedSec % 240) * 1.0625` converted to
`uint8_t`. The product is exact in binary floating point (`1.0625 = 17/16`) and lies below
256, so the conversion is the integer part of `x * 17 / 16`. -/
def wheelPos (elapsedSec : Nat) : Nat := ((elapsedSec % 240) * 17 / 16) % 256

/-- `ClockStateMachine::stateManualRainbow`. -/
def stateManualRainbow (csm : ClockStateMachine) (i : TickIn) : ClockStateMachine :=
  let su := shouldUpdate csm.lastUpdateRainbow refreshInterval i.tThrottle
  let csm0 := { csm with lastUpdateRainbow := su.2 }
  let csm1 : ClockStateMachine :=
    if su.1 then
      let elapsedSec := (i.tWheel % 4294967296) / 1000
      let rgb := calculateRainbowColor (wheelPos elapsedSec)
      updateTimeFromMillis csm0 i.tRender rgb.1 rgb.2.1 rgb.2.2
    else csm0
  if !csm1.powerSwitch.isOn then { csm1 with stateHandler := some Mode.Sleep }
  else if csm1.manualRedSwitch.isOn then { csm1 with stateHandler := some Mode.ManualRed }
  else if csm1.countdown50Switch.isOn then
    { resetTime csm1 i.tReset with stateHandler := some Mode.Countdown50 }
  else csm1

/-- `ClockStateMachine::stateManualRed`. -/
def stateManualRed (csm : ClockStateMachine) (i : TickIn) : ClockStateMachine :=
  let su := shouldUpdate csm.lastUpdateRed refreshInterval i.tThrottle
  let csm0 := { csm with lastUpdateRed := su.2 }
  let csm1 : ClockStateMachine :=
    if su.1 then updateTimeFromMillis csm0 i.tRender 255 0 0 else csm0
  if !csm1.powerSwitch.isOn then { csm1 with stateHandler := some Mode.Sleep }
  else if csm1.manualRainbowSwitch.isOn then
    { csm1 with stateHandler := some Mode.ManualRainbow }
  else if csm1.countdown50Switch.isOn then
    { resetTime csm1 i.tReset with stateHandler := some Mode.Countdown50 }
  else csm1

/-- The round search of `stateCountdown50`,
`while (elapsedSec >= totalSec + initialTime) { totalSec += initialTime; initialTime--; }`,
run for at most `fuel` tests of the loop condition. The result is `(totalSec, initialTime)`
at loop exit; `none` means that the loop has not exited within `fuel` tests. The sum
`totalSec + initialTime` is an `int32_t`: when it leaves the range (undefined in C++) the
model takes the two's-complement wrap that the builds for the target produce.
`initialTime` is an `int8_t`, so the decrement wraps from `-128` to `127`. -/
def roundSearch : Nat → Int → Int → Int → Option (Int × Int)
  | 0, _, _, _ => none
  | fuel + 1, elapsedSec, totalSec, initialTime =>
    if elapsedSec ≥ wrapI32 (totalSec + initialTime) then
      roundSearch fuel elapsedSec (wrapI32 (totalSec + initialTime)) (toI8 (initialTime - 1))
    else some (totalSec, initialTime)

/-- The `int32_t elapsedSec` of `stateCountdown50`: `((now - startTime) / 1000) - 30`,
computed in `uint32_t` and converted to `int32_t`. -/
def countdownElapsedSec (now startTime : Nat) : Int :=
  toI32 (u32sub (u32sub now startTime / 1000) 30)

/-- The arguments `stateCountdown50` passes to `pushTimeToMesh` when the schedule is not
exhausted (source lines 237-276), from `now` and the variables left by the round search. -/
def countdownFrame (now : Nat) (elapsedSec totalSec initialTime : Int) : RenderState :=
  let roundElapsedSec : Nat :=
    toU32 (if elapsedSec < 0 then initialTime + elapsedSec else elapsedSec - totalSec)
  if roundElapsedSec < toU32 (if initialTime < 30 then 12 else 22) then
    let remainingSec : Nat := u32sub 10 (roundElapsedSec % 10) % 256
    let group : Int := if roundElapsedSec < 2 then 1 else if roundElapsedSec < 12 then 2 else 3
    if remainingSec > 8 then
      let remainingSec1 : Nat := toU8 (if initialTime = 60 then 0 else initialTime + 1)
      { d1 := if group = 0 then -1 else group, d2 := -1
        d3 := ((remainingSec1 / 10 : Nat) : Int), d4 := ((remainingSec1 % 10 : Nat) : Int)
        dot := if now % 1000 < 500 then 3 else 4
        r := 255, g := 0, b := 0 }
    else
      { d1 := if group = 0 then -1 else group, d2 := -1
        d3 := ((remainingSec / 10 : Nat) : Int), d4 := ((remainingSec % 10 : Nat) : Int)
        dot := if now % 1000 < 500 then 3 else 4
        r := if remainingSec > 6 then 100 else if remainingSec > 3 then 255 else 255
        g := if remainingSec > 6 then 255 else if remainingSec > 3 then 255 else 100
        b := 0 }
  else
    let remainingSec : Nat :=
      u32sub (toU32 initialTime) (roundElapsedSec % toU32 initialTime) % 256
    let group : Int := if remainingSec ≤ 10 then 1 else 0
    { d1 := if group = 0 then -1 else group, d2 := -1
      d3 := ((remainingSec / 10 : Nat) : Int), d4 := ((remainingSec % 10 : Nat) : Int)
      dot := if now % 1000 < 500 then 3 else 4
      r := if remainingSec > 6 then 100 else if remainingSec > 3 then 255 else 255
      g := if remainingSec > 6 then 255 else if remainingSec > 3 then 255 else 100
      b := 0 }

/-- The transition block that ends `stateCountdown50` (source lines 279-290). -/
def countdown50Transitions (csm : ClockStateMachine) (i : TickIn) : ClockStateMachine :=
  if !csm.powerSwitch.isOn then { csm with stateHandler := some Mode.Sleep }
  else if csm.manualRainbowSwitch.isOn then
    { resetTime csm i.tReset with stateHandler := some Mode.ManualRainbow }
  else if csm.manualRedSwitch.isOn then
    { resetTime csm i.tReset with stateHandler := some Mode.ManualRed }
  else csm

/-- `ClockStateMachine::stateCountdown50`; `none` when the round search gives no result
within `fuel` tests. When the schedule is exhausted the handler publishes the hidden state
and returns before its transition block. -/
def stateCountdown50 (fuel : Nat) (csm : ClockStateMachine) (i : TickIn) :
    Option ClockStateMachine :=
  let su := shouldUpdate csm.lastUpdateCountdown refreshInterval i.tThrottle
  let csm0 := { csm with lastUpdateCountdown := su.2 }
  if su.1 then
    let now := i.tRender % 4294967296
    let elapsedSec := countdownElapsedSec now csm0.startTime
    match roundSearch fuel elapsedSec 0 60 with
    | none => none
    | some (totalSec, initialTime) =>
      if initialTime ≤ 20 then
        some (pushTimeToMesh csm0 (-1) (-1) (-1) (-1) 1 0 0 0)
      else
        let f := countdownFrame now elapsedSec totalSec initialTime
        some (countdown50Transitions
          (pushTimeToMesh csm0 f.d1 f.d2 f.d3 f.d4 f.dot f.r f.g f.b) i)
  else some (countdown50Transitions csm0 i)

/-- `ClockStateMachine::loop`. -/
def loop (fuel : Nat) (csm : ClockStateMachine) (i : TickIn) : Option ClockStateMachine :=
  let csm1 := updateButtons csm i
  match csm1.stateHandler with
  | none => some csm1
  | some Mode.Sleep => some (stateSleep csm1 i)
  | some Mode.ManualRainbow => some (stateManualRainbow csm1 i)
  | some Mode.ManualRed => some (stateManualRed csm1 i)
  | some Mode.Countdown50 => stateCountdown50 fuel csm1 i

/-- One step of a run: the mesh payloads delivered to `meshTimeHandler` since the previous
pass, followed by one pass of `loop()`. -/
structure Step where
  inbox : List (List Char)
  tick : TickIn
deriving DecidableEq

/-- `meshTimeHandler` applied to each delivered payload in turn. -/
def deliver (csm : ClockStateMachine) (inbox : List (List Char)) : ClockStateMachine :=
  inbox.foldl recvMeshTime csm

/-- One step of a run. -/
def step (fuel : Nat) (csm : ClockStateMachine) (e : Step) : Option ClockStateMachine :=
  loop fuel (deliver csm e.inbox) e.tick

/-- A run: the steps in order, stopping with `none` if a pass of `loop()` does not return. -/
def run (fuel : Nat) : ClockStateMachine → List Step → Option ClockStateMachine
  | csm, [] => some csm
  | csm, e :: es =>
    match step fuel csm e with
    | none => none
    | some csm1 => run fuel csm1 es

/-- The state in which the first pass of `loop()` starts: constructed, then `setup()`. -/
def start (t0 : Nat) : ClockStateMachine := setup (ClockStateMachine.init t0)

/-- The transitions on which a handler calls `resetTime`. -/
def resetsEpoch : Option Mode → Option Mode → Bool
  | some Mode.Sleep, some Mode.ManualRainbow => true
  | some Mode.Sleep, some Mode.ManualRed => true
  | some Mode.Sleep, some Mode.Countdown50 => true
  | some Mode.ManualRainbow, some Mode.Countdown50 => true
  | some Mode.ManualRed, some Mode.Countdown50 => true
  | some Mode.Countdown50, some Mode.ManualRainbow => true
  | some Mode.Countdown50, some Mode.ManualRed => true
  | _, _ => false

/-- A tick at which every `millis()` call reads `t`. -/
def tickAt (t : Nat) (power rainbow red countdown : Bool) : TickIn :=
  { tButtons := t, tThrottle := t, tWheel := t, tRender := t, tReset := t
    power := power, rainbow := rainbow, red := red, countdown := countdown }

/-- The output the specification gives for the elapsed-time formatter, written from its
wording: with `e` the elapsed milliseconds, `s = (e div 1000) mod 3600` and `m = s div 60`,
the digits are (blank if `m < 10` else `m div 10`, `m mod 10`, `(s mod 60) div 10`,
`s mod 10`), the dot mode is 3 when `e mod 1000 < 500` and 4 otherwise, and the colour is
`(0,0,0)` when `e >= 14400000` and the input colour otherwise. -/
def elapsedFormatSpec (e : Nat) (r g b : Int) : RenderState :=
  let s := (e / 1000) % 3600
  let m := s / 60
  { d1 := if m < 10 then -1 else ((m / 10 : Nat) : Int)
    d2 := ((m % 10 : Nat) : Int)
    d3 := (((s % 60) / 10 : Nat) : Int)
    d4 := ((s % 10 : Nat) : Int)
    dot := if e % 1000 < 500 then 3 else 4
    r := if e ≥ 14400000 then 0 else r
    g := if e ≥ 14400000 then 0 else g
    b := if e ≥ 14400000 then 0 else b }

/-- A run that powers off after the countdown schedule is exhausted: power and
countdown-select are switched on at 0 ms and debounced at 100 ms (Sleep to Countdown50,
epoch 100); at 1700100 ms the power line reads off; the pass at 1700700 ms debounces it. -/
def exhaustedPowerOffRun : List Step :=
  [ { inbox := [], tick := tickAt 0 true false false true },
    { inbox := [], tick := tickAt 100 true false false true },
    { inbox := [], tick := tickAt 1700100 false false false true } ]

/-- The first-entry guard of `stateSleep` is armed whenever the mode is not Sleep. -/
def GuardArmed (csm : ClockStateMachine) : Prop :=
  csm.stateHandler ≠ some Mode.Sleep → csm.firstEntry = true

/-- A state in Sleep whose power and countdown-select lines have read on since 0 ms but
are not yet debounced. -/
def sleepPoweredOn : ClockStateMachine :=
  { start 0 with
    powerSwitch := Button.mk true false false 0
    countdown50Switch := Button.mk true false false 0 }

/-- The running total the specification gives for the start of round `k`: the sum of the
durations `60 - i` of the rounds `i < k`. -/
def roundStart (k : Nat) : Int := ((List.range k).map (fun i => (60 : Int) - (i : Int))).sum

/-- A state in Countdown50 with epoch 100 ms, reached from start-up by the two passes of
`exhaustedPowerOffRun` that switch power and countdown-select on. -/
def countdownRunning : ClockStateMachine :=
  { start 0 with
    powerSwitch := Button.mk true true true 0
    countdown50Switch := Button.mk true true true 0
    stateHandler := some Mode.Countdown50
    startTime := 100
    firstEntry := true
    display := [hidden]
    mesh := ["-1,-1,-1,-1,1,0,0,0".toList]
    rgbLed := some (0, 10, 0) }

/-- The colour policy as the specification words it, from the remaining whole seconds:
above 8 pure red, else above 6 `(100,255,0)`, else above 3 `(255,255,0)`, else
`(255,100,0)`. -/
def colourTierSpec (remaining : Nat) : Int × Int × Int :=
  if remaining > 8 then (255, 0, 0)
  else if remaining > 6 then (100, 255, 0)
  else if remaining > 3 then (255, 255, 0)
  else (255, 100, 0)

/-! ## SegmentDisplay.cpp -/

/-- `DIGIT_PATTERNS`: for each digit 0-9 the on/off values of its seven segments. -/
def DIGIT_PATTERNS : List (List Nat) :=
  [[0, 1, 1, 1, 1, 1, 1], [0, 1, 0, 0, 0, 0, 1], [1, 1, 1, 0, 1, 1, 0], [1, 1, 1, 0, 0, 1, 1],
   [1, 1, 0, 1, 0, 0, 1], [1, 0, 1, 1, 0, 1, 1], [1, 0, 1, 1, 1, 1, 1], [0, 1, 1, 0, 0, 0, 1],
   [1, 1, 1, 1, 1, 1, 1], [1, 1, 1, 1, 0, 0, 1]]

/-- `DIGIT_POSITIONS[position].segments`: for each of the four digits the first and last
LED index of each of its seven segments. -/
def DIGIT_POSITIONS : List (List (Nat × Nat)) :=
  [[(0, 5), (6, 11), (12, 17), (18, 23), (24, 29), (30, 35), (36, 41)],
   [(42, 47), (48, 53), (54, 59), (60, 65), (66, 71), (72, 77), (78, 83)],
   [(92, 97), (98, 103), (104, 109), (110, 115), (116, 121), (122, 127), (128, 133)],
   [(134, 139), (140, 145), (146, 151), (152, 157), (158, 163), (164, 169), (170, 175)]]

/-- `DOT_LEDS` of `updateDots`. -/
def DOT_LEDS : List Nat := [84, 85, 86, 87, 88, 89, 90, 91]

/-- The table `patterns` of `updateDots`, one row for each mode 1-5. -/
def DOT_PATTERNS : List (List Bool) :=
  [[true, true, false, false, false, false, false, false],
   [false, false, false, false, false, false, false, false],
   [true, true, false, false, false, false, true, true],
   [false, false, true, true, true, true, false, false],
   [true, true, true, true, true, true, true, true]]

/-- The fields of `SegmentDisplay`; `strip` is the pixel buffer of the NeoPixel strip, one
packed colour for each of its 176 LEDs. -/
structure SegmentDisplay where
  strip : List Nat
  curr_r : Int
  curr_g : Int
  curr_b : Int
deriving DecidableEq

/-- The NeoPixel call `strip.Color(r, g, b)`: its parameters are `uint8_t`, and the result
packs the three channels into one value. -/
def Color (r g b : Int) : Nat := toU8 r * 65536 + toU8 g * 256 + toU8 b

/-- The NeoPixel call `strip.setPixelColor(n, c)`: stores `c` for LED `n`, and does nothing
when `n` is beyond the strip. -/
def setPixelColor (strip : List Nat) (n c : Nat) : List Nat := strip.set n c

/-- The inner loop of `updateDigit`: `for (i = start; i <= end; i++) setPixelColor(i, c)`. -/
def fillSegment (strip : List Nat) (start stop c : Nat) : List Nat :=
  (List.range (stop + 1 - start)).foldl (fun s k => setPixelColor s (start + k) c) strip

/-- The segment loop of `updateDigit` for a pattern pointer: `none` is the null pointer of
the blank digit. -/
def paintDigit (sd : SegmentDisplay) (position : Nat) (pattern : Option (List Nat)) :
    SegmentDisplay :=
  { sd with
    strip := (List.range 7).foldl
      (fun s segment =>
        let isOn : Bool :=
          match pattern with
          | some p => decide (p.getD segment 0 ≠ 0)
          | none => false
        let seg := (DIGIT_POSITIONS.getD position []).getD segment (0, 0)
        fillSegment s seg.1 seg.2 (if isOn then Color sd.curr_r sd.curr_g sd.curr_b else 0))
      sd.strip }

/-- `SegmentDisplay::updateDigit(uint8_t position, int8_t value)`. The argument is converted
to `int8_t`; a converted value other than `-1` indexes `DIGIT_PATTERNS`, and `none` is the
read outside that table (undefined behaviour) for an index outside 0..9. -/
def SegmentDisplay.updateDigit (sd : SegmentDisplay) (position : Nat) (value : Int) :
    Option SegmentDisplay :=
  let value8 := toI8 value
  if value8 = -1 then some (paintDigit sd position none)
  else if 0 ≤ value8 ∧ value8 ≤ 9 then
    some (paintDigit sd position (some (DIGIT_PATTERNS.getD value8.toNat [])))
  else none

/-- `SegmentDisplay::updateDots(uint8_t mode)`; the argument is converted to `uint8_t`. -/
def SegmentDisplay.updateDots (sd : SegmentDisplay) (mode : Int) : SegmentDisplay :=
  let mode8 := toU8 mode
  if mode8 < 1 ∨ mode8 > 5 then sd
  else
    let pattern := DOT_PATTERNS.getD (mode8 - 1) []
    { sd with
      strip := (List.range 8).foldl
        (fun s i =>
          setPixelColor s (DOT_LEDS.getD i 0)
            (if pattern.getD i false then Color sd.curr_r sd.curr_g sd.curr_b else 0))
        sd.strip }

/-- `SegmentDisplay::setTime`; `none` when a digit lookup is undefined. -/
def SegmentDisplay.setTime (sd : SegmentDisplay) (d1 d2 d3 d4 dot r g b : Int) :
    Option SegmentDisplay :=
  let sd0 := { sd with curr_r := r, curr_g := g, curr_b := b }
  (sd0.updateDigit 0 d1).bind fun sd1 =>
  (sd1.updateDigit 1 d2).bind fun sd2 =>
  (sd2.updateDigit 2 d3).bind fun sd3 =>
  (sd3.updateDigit 3 d4).bind fun sd4 =>
  some (sd4.updateDots dot)

/-- The display after `strip.clear()`: all 176 LEDs off. -/
def SegmentDisplay.cleared : SegmentDisplay :=
  { strip := List.replicate 176 0, curr_r := 0, curr_g := 0, curr_b := 0 }

/-- The colours of the eight dot LEDs. -/
def SegmentDisplay.dots (sd : SegmentDisplay) : List Nat :=
  DOT_LEDS.map (fun n => sd.strip.getD n 0)

/-- What one pass adds to the two call logs: the display log grows by a list of render
states, the mesh log by their encodings, and every one of those states is in range. -/
def Publishes (c s : ClockStateMachine) : Prop :=
  ∃ pushed : List RenderState,
    s.display = c.display ++ pushed ∧
    s.mesh = c.mesh
      ++ pushed.map (fun x => encodeDisplayData x.d1 x.d2 x.d3 x.d4 x.dot x.r x.g x.b) ∧
    ∀ x ∈ pushed, x.valid

/-- A run with power, red-select and countdown-select held on (rainbow-select off) from
0 ms, one pass every 100 ms. -/
def heldRedCountdownRun : List Step :=
  [ { inbox := [], tick := tickAt 0 true false true true },
    { inbox := [], tick := tickAt 100 true false true true },
    { inbox := [], tick := tickAt 200 true false true true },
    { inbox := [], tick := tickAt 300 true false true true },
    { inbox := [], tick := tickAt 400 true false true true } ]

/-- Whether a pass of `stateCountdown50` reaches the transition block at its end: the
throttle does not fire, or the round search exits with a duration above 20. -/
def reachesTransitions (fuel : Nat) (c : ClockStateMachine) (i : TickIn) : Prop :=
  (shouldUpdate c.lastUpdateCountdown refreshInterval i.tThrottle).1 = false ∨
    ∃ T d, roundSearch fuel (countdownElapsedSec (i.tRender % 4294967296) c.startTime) 0 60
      = some (T, d) ∧ 20 < d

/-- The state after the first two passes of `heldRedCountdownRun`: ManualRed, epoch 100 ms,
with power, red-select and countdown-select debounced on. -/
def heldInRed : ClockStateMachine :=
  { start 0 with
    powerSwitch := Button.mk true true true 0
    manualRedSwitch := Button.mk true true true 0
    countdown50Switch := Button.mk true true true 0
    stateHandler := some Mode.ManualRed
    startTime := 100
    firstEntry := true
    display := [hidden]
    mesh := ["-1,-1,-1,-1,1,0,0,0".toList]
    rgbLed := some (0, 10, 0) }

/-- A run that switches power on with no select switch: the pass at 0 ms reads the power
line on, the pass at 100000 ms debounces it (Sleep to ManualRainbow, epoch 100000 ms). -/
def rainbowResetRun : List Step :=
  [ { inbox := [], tick := tickAt 0 true false false false },
    { inbox := [], tick := tickAt 100000 true false false false } ]

/-- The state after `rainbowResetRun`: ManualRainbow, its epoch just reset to 100000 ms. -/
def rainbowJustReset : ClockStateMachine :=
  { start 0 with
    powerSwitch := Button.mk true true true 0
    stateHandler := some Mode.ManualRainbow
    startTime := 100000
    firstEntry := true
    display := [hidden]
    mesh := ["-1,-1,-1,-1,1,0,0,0".toList]
    rgbLed := some (0, 10, 0) }

/-! ## Codec lemmas -/

theorem digitChar_isDigit : ∀ d, d < 10 → (Nat.digitChar d).isDigit = true := by decide

theorem digitChar_value : ∀ d, d < 10 → (Nat.digitChar d).toNat - 48 = d := by decide

theorem noDigitHead_nil : NoDigitHead [] := by
  intro c cs h; cases h

theorem noDigitHead_comma (cs : List Char) : NoDigitHead (',' :: cs) := by
  intro c cs' h
  cases h
  decide

theorem toDigitsCore_allDigits (fuel : Nat) : ∀ (n : Nat) (ds : List Char),
    (∀ c ∈ ds, c.isDigit = true) → ∀ c ∈ Nat.toDigitsCore 10 fuel n ds, c.isDigit = true := by
  induction fuel with
  | zero => intro n ds h; simpa [Nat.toDigitsCore] using h
  | succ fuel ih =>
    intro n ds h
    have hd : (Nat.digitChar (n % 10)).isDigit = true :=
      digitChar_isDigit _ (Nat.mod_lt _ (by decide))
    have hds : ∀ c ∈ Nat.digitChar (n % 10) :: ds, c.isDigit = true := by
      intro c hc
      rcases List.mem_cons.1 hc with rfl | hc
      · exact hd
      · exact h c hc
    simp only [Nat.toDigitsCore]
    split
    · exact hds
    · exact ih _ _ hds

theorem toDigitsCore_value (fuel : Nat) : ∀ (n : Nat) (ds : List Char), n < fuel →
    digitsValue 0 (Nat.toDigitsCore 10 fuel n ds) = digitsValue n ds := by
  induction fuel with
  | zero => intro n ds h; omega
  | succ fuel ih =>
    intro n ds h
    have hv := digitChar_value (n % 10) (Nat.mod_lt _ (by decide))
    simp only [Nat.toDigitsCore]
    split
    · next h0 =>
      have : n % 10 = n := by omega
      simp only [digitsValue, List.foldl_cons, hv]
      congr 1
      omega
    · next h0 =>
      rw [ih (n / 10) _ (by omega)]
      simp only [digitsValue, List.foldl_cons, hv]
      congr 1
      omega

theorem toDigitsCore_ne_nil (fuel n : Nat) (ds : List Char) :
    Nat.toDigitsCore 10 (fuel + 1) n ds ≠ [] := by
  induction fuel generalizing n ds with
  | zero => simp [Nat.toDigitsCore]
  | succ fuel ih =>
    simp only [Nat.toDigitsCore]
    split
    · simp
    · exact ih _ _

theorem scanDigits_append (ds : List Char) : ∀ (acc : Nat) (rest : List Char),
    (∀ c ∈ ds, c.isDigit = true) → NoDigitHead rest →
    scanDigits (ds ++ rest) acc = (digitsValue acc ds, rest) := by
  induction ds with
  | nil =>
    intro acc rest _ hr
    cases rest with
    | nil => rfl
    | cons c cs => simp [scanDigits, hr c cs rfl, digitsValue]
  | cons d ds ih =>
    intro acc rest hds hr
    have hd : d.isDigit = true := hds d (List.mem_cons_self _ _)
    simp only [List.cons_append, scanDigits, hd, if_true, List.append_eq]
    rw [ih _ _ (fun c hc => hds c (List.mem_cons_of_mem _ hc)) hr]
    rfl

theorem scanUnsigned_toDigits (n : Nat) (rest : List Char) (hr : NoDigitHead rest) :
    scanUnsigned (Nat.toDigits 10 n ++ rest) = some (n, rest) := by
  have hall : ∀ c ∈ Nat.toDigits 10 n, c.isDigit = true :=
    toDigitsCore_allDigits _ _ _ (by simp)
  have hval : digitsValue 0 (Nat.toDigits 10 n) = n := by
    have := toDigitsCore_value (n + 1) n [] (by omega)
    simpa [digitsValue] using this
  have hne : Nat.toDigits 10 n ≠ [] := toDigitsCore_ne_nil _ _ _
  have hscan := scanDigits_append (Nat.toDigits 10 n) 0 rest hall hr
  cases hds : Nat.toDigits 10 n with
  | nil => exact absurd hds hne
  | cons c cs =>
    rw [hds] at hall hscan hval
    have hc : c.isDigit = true := hall c (List.mem_cons_self _ _)
    simp only [List.cons_append, scanUnsigned, hc, if_true]
    rw [← List.cons_append, hscan, hval]

theorem isDigit_not_space (c : Char) (h : c.isDigit = true) : isSpace c = false := by
  have h1 : c ≠ ' ' := by rintro rfl; revert h; decide
  have h2 : c ≠ '\t' := by rintro rfl; revert h; decide
  have h3 : c ≠ '\n' := by rintro rfl; revert h; decide
  have h4 : c ≠ '\x0b' := by rintro rfl; revert h; decide
  have h5 : c ≠ '\x0c' := by rintro rfl; revert h; decide
  have h6 : c ≠ '\r' := by rintro rfl; revert h; decide
  simp [isSpace, h1, h2, h3, h4, h5, h6]

theorem scanInt_fmtInt (v : Int) (rest : List Char) (hr : NoDigitHead rest) :
    scanInt (fmtInt v ++ rest) = some (v, rest) := by
  cases v with
  | ofNat n =>
    have hu := scanUnsigned_toDigits n rest hr
    have hne : Nat.toDigits 10 n ≠ [] := toDigitsCore_ne_nil _ _ _
    have hall : ∀ c ∈ Nat.toDigits 10 n, c.isDigit = true :=
      toDigitsCore_allDigits _ _ _ (by simp)
    simp only [fmtInt]
    cases hds : Nat.toDigits 10 n with
    | nil => exact absurd hds hne
    | cons c cs =>
      rw [hds] at hu hall
      have hc : c.isDigit = true := hall c (List.mem_cons_self _ _)
      have hm : c ≠ '-' := by rintro rfl; revert hc; decide
      have hp : c ≠ '+' := by rintro rfl; revert hc; decide
      simp only [scanInt, List.cons_append, List.dropWhile_cons, isDigit_not_space c hc,
        hm, hp, if_false, Bool.false_eq_true]
      rw [← List.cons_append, hu]
      rfl
  | negSucc n =>
    have hu := scanUnsigned_toDigits (n + 1) rest hr
    have hs : isSpace '-' = false := by decide
    simp only [fmtInt, scanInt, List.cons_append, List.dropWhile_cons, hs, if_true,
      Bool.false_eq_true, if_false, hu, Option.map_some']
    rfl

theorem sscanfInts_field (k : Nat) (v : Int) (rest : List Char) :
    sscanfInts (k + 2) (fmtInt v ++ ',' :: rest) = v :: sscanfInts (k + 1) rest := by
  rw [sscanfInts, scanInt_fmtInt v _ (noDigitHead_comma rest)]
  simp

theorem sscanfInts_last (v : Int) (rest : List Char) (hr : NoDigitHead rest) :
    sscanfInts 1 (fmtInt v ++ rest) = [v] := by
  rw [sscanfInts, scanInt_fmtInt v _ hr]

theorem sscanfInts_format (d1 d2 d3 d4 dot r g b : Int) :
    sscanfInts 8 (formatDisplayData d1 d2 d3 d4 dot r g b) = [d1, d2, d3, d4, dot, r, g, b] := by
  have hlast := sscanfInts_last b [] noDigitHead_nil
  rw [List.append_nil] at hlast
  simp only [formatDisplayData, sscanfInts_field, hlast]

theorem decode_format (x : RenderState) :
    decodeDisplayData (formatDisplayData x.d1 x.d2 x.d3 x.d4 x.dot x.r x.g x.b) = some x := by
  simp only [decodeDisplayData, sscanfInts_format]

theorem fmtInt_length_le (v : Int) (e : Nat) (he : 0 < e) (hlo : -1 ≤ v) (hhi : v < 10 ^ e) :
    (fmtInt v).length ≤ if v < 0 then 2 else e := by
  cases v with
  | ofNat n =>
    have hn : n < 10 ^ e := by
      have h' : ((n : Nat) : Int) < ((10 ^ e : Nat) : Int) := by
        rw [Nat.cast_pow]; exact hhi
      exact Int.ofNat_lt.1 h'
    have := Nat.toDigitsCore_length 10 (by decide) (n + 1) n e hn he
    have hneg : ¬ ((Int.ofNat n) < 0) := by simp
    simpa [fmtInt, Nat.toDigits, hneg] using this
  | negSucc n =>
    have hn : n = 0 := by
      have : Int.negSucc n = -((n : Int) + 1) := Int.negSucc_eq n
      omega
    subst hn
    rw [if_pos (by decide)]
    decide

theorem format_length_le (x : RenderState) (hx : x.valid) :
    (formatDisplayData x.d1 x.d2 x.d3 x.d4 x.dot x.r x.g x.b).length ≤ 25 := by
  obtain ⟨⟨a1, b1⟩, ⟨a2, b2⟩, ⟨a3, b3⟩, ⟨a4, b4⟩, ⟨a5, b5⟩, ⟨a6, b6⟩, ⟨a7, b7⟩, ⟨a8, b8⟩⟩ := hx
  have h1 := fmtInt_length_le x.d1 1 (by decide) a1 (by norm_num; omega)
  have h2 := fmtInt_length_le x.d2 1 (by decide) a2 (by norm_num; omega)
  have h3 := fmtInt_length_le x.d3 1 (by decide) a3 (by norm_num; omega)
  have h4 := fmtInt_length_le x.d4 1 (by decide) a4 (by norm_num; omega)
  have h5 := fmtInt_length_le x.dot 1 (by decide) (by omega) (by norm_num; omega)
  have h6 := fmtInt_length_le x.r 3 (by decide) (by omega) (by norm_num; omega)
  have h7 := fmtInt_length_le x.g 3 (by decide) (by omega) (by norm_num; omega)
  have h8 := fmtInt_length_le x.b 3 (by decide) (by omega) (by norm_num; omega)
  rw [if_neg (by omega)] at h5 h6 h7 h8
  simp only [formatDisplayData, List.length_append, List.length_cons]
  split_ifs at h1 h2 h3 h4 <;> omega

theorem encode_eq_format (x : RenderState) (hx : x.valid) :
    encodeDisplayData x.d1 x.d2 x.d3 x.d4 x.dot x.r x.g x.b
      = formatDisplayData x.d1 x.d2 x.d3 x.d4 x.dot x.r x.g x.b := by
  have hlen := format_length_le x hx
  unfold encodeDisplayData
  exact List.take_of_length_le (by omega)

theorem decode_encode_valid (x : RenderState) (hx : x.valid) :
    decodeDisplayData (encodeDisplayData x.d1 x.d2 x.d3 x.d4 x.dot x.r x.g x.b) = some x := by
  rw [encode_eq_format x hx]
  exact decode_format x

/-- C1: for every valid render state the encoder output is the whole formatted text (at most
25 characters, so the 31-character limit never truncates it), decoding that text succeeds
with exactly the eight fields, and re-encoding whatever the decoder returns gives the same
text again. -/
theorem codec_roundtrip (x : RenderState) (hx : x.valid) :
    encodeDisplayData x.d1 x.d2 x.d3 x.d4 x.dot x.r x.g x.b
        = formatDisplayData x.d1 x.d2 x.d3 x.d4 x.dot x.r x.g x.b ∧
      (formatDisplayData x.d1 x.d2 x.d3 x.d4 x.dot x.r x.g x.b).length ≤ 31 ∧
      decodeDisplayData (encodeDisplayData x.d1 x.d2 x.d3 x.d4 x.dot x.r x.g x.b) = some x ∧
      ∀ y, decodeDisplayData (encodeDisplayData x.d1 x.d2 x.d3 x.d4 x.dot x.r x.g x.b) = some y →
        encodeDisplayData y.d1 y.d2 y.d3 y.d4 y.dot y.r y.g y.b
          = encodeDisplayData x.d1 x.d2 x.d3 x.d4 x.dot x.r x.g x.b := by
  have hlen := format_length_le x hx
  refine ⟨encode_eq_format x hx, by omega, decode_encode_valid x hx, ?_⟩
  intro y hy
  rw [decode_encode_valid x hx] at hy
  cases hy
  rfl

theorem codec_roundtrip_witness :
    (RenderState.mk (-1) 5 4 2 3 255 128 0).valid ∧
      decodeDisplayData (encodeDisplayData (-1) 5 4 2 3 255 128 0)
        = some (RenderState.mk (-1) 5 4 2 3 255 128 0) :=
  ⟨by decide, (codec_roundtrip (RenderState.mk (-1) 5 4 2 3 255 128 0) (by decide)).2.2.1⟩

/-! ## Malformed messages -/

/-- C2: when `sscanf` converts fewer than eight integers from a message,
`decodeDisplayData` reports failure and `recvMeshTime` returns the state it was given: no
`display.setTime` call is recorded and mode, epoch and every other field are unchanged. -/
theorem recv_malformed_dropped (data : List Char) (csm : ClockStateMachine)
    (h : (sscanfInts 8 data).length < 8) :
    decodeDisplayData data = none ∧ recvMeshTime csm data = csm ∧
      (recvMeshTime csm data).display = csm.display ∧
      (recvMeshTime csm data).stateHandler = csm.stateHandler ∧
      (recvMeshTime csm data).startTime = csm.startTime := by
  have hd : decodeDisplayData data = none := by
    unfold decodeDisplayData
    split
    · next heq => rw [heq] at h; simp at h
    · rfl
  have hr : recvMeshTime csm data = csm := by
    unfold recvMeshTime
    rw [hd]
  exact ⟨hd, hr, by rw [hr], by rw [hr], by rw [hr]⟩

theorem recv_malformed_dropped_witness :
    (sscanfInts 8 []).length < 8 ∧ decodeDisplayData [] = none ∧
      recvMeshTime (start 0) [] = start 0 :=
  ⟨by decide, (recv_malformed_dropped [] (start 0) (by decide)).1,
    (recv_malformed_dropped [] (start 0) (by decide)).2.1⟩

/-! ## Debounced switch -/

theorem u32sub_self (a : Nat) : u32sub a a = 0 := by
  unfold u32sub
  have := Nat.mod_lt a (show 0 < 4294967296 by decide)
  omega

theorem u32sub_of_le (a b : Nat) (hab : b ≤ a) (ha : a < 4294967296) : u32sub a b = a - b := by
  unfold u32sub
  omega

theorem Button.run_concat (b : Button) (pre : List (Nat × Bool)) (e : Nat × Bool) :
    Button.run b (pre ++ [e]) = (Button.run b pre).update e.1 e.2 := by
  simp [Button.run, List.foldl_append]

theorem Button.run_cons (b : Button) (e : Nat × Bool) (es : List (Nat × Bool)) :
    Button.run b (e :: es) = Button.run (b.update e.1 e.2) es := rfl

theorem Button.run_append (b : Button) (l1 l2 : List (Nat × Bool)) :
    Button.run b (l1 ++ l2) = Button.run (Button.run b l1) l2 := by
  simp [Button.run, List.foldl_append]

/-- An update changes the debounced value only in one way. -/
theorem Button.update_flip (b : Button) (now : Nat) (raw : Bool)
    (h : (b.update now raw).switchState ≠ b.switchState) :
    raw = b.lastReading ∧ raw ≠ b.switchState ∧
      u32sub now b.lastDebounceTime > 50 ∧ (b.update now raw).switchState = raw := by
  unfold Button.update at h ⊢
  by_cases h1 : raw = b.lastReading
  · simp only [h1, bne_self_eq_false, Bool.false_eq_true, if_false] at h ⊢
    by_cases h2 : u32sub now b.lastDebounceTime > Button.DEBOUNCE_DELAY
    · simp only [h2, if_true] at h ⊢
      by_cases h3 : b.lastReading = b.switchState
      · simp [h3] at h
      · have h3' : (b.lastReading != b.switchState) = true := by simpa using h3
        simp only [h3', if_true] at h ⊢
        exact ⟨trivial, h3, h2, trivial⟩
    · simp [h2] at h
  · have h1' : (raw != b.lastReading) = true := by simpa using h1
    simp only [h1', if_true, u32sub_self] at h
    simp [Button.DEBOUNCE_DELAY] at h

/-- An update leaves the debounced value alone or sets it to the raw sample. -/
theorem Button.update_switchState (b : Button) (now : Nat) (raw : Bool) :
    (b.update now raw).switchState = b.switchState ∨ (b.update now raw).switchState = raw := by
  unfold Button.update
  simp only
  split_ifs <;> simp

theorem Button.update_lastReading (b : Button) (now : Nat) (raw : Bool) :
    (b.update now raw).lastReading = raw := rfl

theorem Button.update_lastDebounceTime (b : Button) (now : Nat) (raw : Bool) :
    (b.update now raw).lastDebounceTime
      = if raw = b.lastReading then b.lastDebounceTime else now := by
  unfold Button.update
  simp only
  by_cases h1 : raw = b.lastReading
  · simp only [h1, bne_self_eq_false, Bool.false_eq_true, if_false, if_true]
    split_ifs <;> rfl
  · have h1' : (raw != b.lastReading) = true := by simpa using h1
    simp only [h1', if_true, h1, if_false]
    split_ifs <;> rfl

theorem Button.tracks_update (b : Button) (pre : List (Nat × Bool)) (e : Nat × Bool)
    (h : b.Tracks pre) : (b.update e.1 e.2).Tracks (pre ++ [e]) := by
  by_cases h1 : e.2 = b.lastReading
  · rcases h with ⟨hz, hs, hl, hall⟩ | ⟨old, e0, mid, hpre, ht, he0, hmid⟩
    · left
      have hsw : (b.update e.1 e.2).switchState = false := by
        rcases Button.update_switchState b e.1 e.2 with h' | h'
        · rw [h', hs]
        · rw [h', h1, hl]
      refine ⟨?_, hsw, ?_, ?_⟩
      · rw [Button.update_lastDebounceTime, if_pos h1, hz]
      · rw [Button.update_lastReading, h1, hl]
      · intro x hx
        rcases List.mem_append.1 hx with hx | hx
        · exact hall x hx
        · rw [List.mem_singleton.1 hx, h1, hl]
    · right
      refine ⟨old, e0, mid ++ [e], ?_, ?_, ?_, ?_⟩
      · rw [hpre]; simp
      · rw [Button.update_lastDebounceTime, if_pos h1, ht]
      · rw [Button.update_lastReading, h1, he0]
      · intro x hx
        rw [Button.update_lastReading]
        rcases List.mem_append.1 hx with hx | hx
        · rw [hmid x hx, h1]
        · rw [List.mem_singleton.1 hx]
  · right
    refine ⟨pre, e, [], rfl, ?_, ?_, ?_⟩
    · rw [Button.update_lastDebounceTime, if_neg h1]
    · rw [Button.update_lastReading]
    · intro x hx; cases hx

theorem Button.tracks_run (pre : List (Nat × Bool)) :
    (Button.run Button.init pre).Tracks pre := by
  induction pre using List.reverseRecOn with
  | nil => left; exact ⟨rfl, rfl, rfl, by intro x hx; cases hx⟩
  | append_singleton l a ih =>
    rw [Button.run_concat]
    exact Button.tracks_update _ _ _ ih

/-- Updating with samples that all equal the debounced value leaves it unchanged. -/
theorem Button.run_same (mid : List (Nat × Bool)) : ∀ (b : Button) (v : Bool),
    b.switchState = v → (∀ x ∈ mid, x.2 = v) → (Button.run b mid).switchState = v := by
  induction mid with
  | nil => intro b v h _; exact h
  | cons e es ih =>
    intro b v h hall
    rw [Button.run_cons]
    apply ih
    · rcases Button.update_switchState b e.1 e.2 with h' | h'
      · rw [h', h]
      · rw [h', hall e (List.mem_cons_self _ _)]
    · intro x hx; exact hall x (List.mem_cons_of_mem _ hx)

/-- C3: over any sequence of updates with non-decreasing 32-bit timestamps, starting from
the initial button: (1) if the update with sample `e` changes the debounced value, the new
value is `e`'s raw value, some earlier sample `e0` taken more than 50 ms before `e` has that
value and so does every sample between them, and hence every earlier sample taken within
the 50 ms before `e` has that value; (2) two updates whose samples lie in one run of
identical raw values do not both change the debounced value. -/
theorem debounce_stable_window (evs : List (Nat × Bool))
    (hmono : evs.Pairwise (fun a b => a.1 ≤ b.1))
    (hrange : ∀ x ∈ evs, x.1 < 4294967296) :
    (∀ pre e post, evs = pre ++ e :: post →
      ((Button.run Button.init pre).update e.1 e.2).switchState
          ≠ (Button.run Button.init pre).switchState →
        ((Button.run Button.init pre).update e.1 e.2).switchState = e.2 ∧
        (∃ old e0 mid, pre = old ++ e0 :: mid ∧ e0.1 + 50 < e.1 ∧ e0.2 = e.2 ∧
          ∀ x ∈ mid, x.2 = e.2) ∧
        (∀ x ∈ pre, e.1 ≤ x.1 + 50 → x.2 = e.2)) ∧
    (∀ pre e1 mid e2 post, evs = pre ++ e1 :: (mid ++ e2 :: post) →
      (∀ x ∈ mid, x.2 = e1.2) → e2.2 = e1.2 →
        ¬ (((Button.run Button.init pre).update e1.1 e1.2).switchState
              ≠ (Button.run Button.init pre).switchState ∧
           ((Button.run Button.init (pre ++ e1 :: mid)).update e2.1 e2.2).switchState
              ≠ (Button.run Button.init (pre ++ e1 :: mid)).switchState)) := by
  constructor
  · intro pre e post hevs hflip
    obtain ⟨hraw, hne, helapsed, hnew⟩ := Button.update_flip _ _ _ hflip
    rw [hevs] at hmono
    obtain ⟨hpre, -, hcross⟩ := List.pairwise_append.1 hmono
    have hle : ∀ x ∈ pre, x.1 ≤ e.1 := fun x hx => hcross x hx e (List.mem_cons_self _ _)
    have he : e.1 < 4294967296 := hrange e (by rw [hevs]; simp)
    rcases Button.tracks_run pre with ⟨-, hs, hl, -⟩ | ⟨old, e0, mid, hdec, ht, he0, hmid⟩
    · exact absurd (by rw [hraw, hl, hs]) hne
    · have he0mem : e0 ∈ pre := by rw [hdec]; simp
      have hgap : e0.1 + 50 < e.1 := by
        rw [ht, u32sub_of_le _ _ (hle e0 he0mem) he] at helapsed
        omega
      refine ⟨hnew, ⟨old, e0, mid, hdec, hgap, by rw [he0, hraw], ?_⟩, ?_⟩
      · intro x hx; rw [hmid x hx, hraw]
      · intro x hx hwin
        rw [hdec] at hx hpre
        obtain ⟨-, -, hold⟩ := List.pairwise_append.1 hpre
        rcases List.mem_append.1 hx with hx | hx
        · have := hold x hx e0 (List.mem_cons_self _ _)
          omega
        · rcases List.mem_cons.1 hx with hx | hx
          · rw [hx] at hwin; omega
          · rw [hmid x hx, hraw]
  · intro pre e1 mid e2 post _ hmid he2 ⟨hf1, hf2⟩
    obtain ⟨-, -, -, hnew1⟩ := Button.update_flip _ _ _ hf1
    obtain ⟨-, hne2, -, -⟩ := Button.update_flip _ _ _ hf2
    apply hne2
    rw [Button.run_append, Button.run_cons,
      Button.run_same mid _ e1.2 hnew1 hmid, he2]

theorem debounce_stable_window_witness :
    ((Button.run Button.init [(0, true), (10, true)]).update 60 true).switchState
        ≠ (Button.run Button.init [(0, true), (10, true)]).switchState ∧
      ((Button.run Button.init [(0, true), (10, true)]).update 60 true).switchState = true ∧
      ∀ x ∈ [((0 : Nat), true), (10, true)], 60 ≤ x.1 + 50 → x.2 = true :=
  ⟨by decide,
    ((debounce_stable_window [(0, true), (10, true), (60, true), (200, true)]
      (by decide) (by decide)).1 [(0, true), (10, true)] (60, true) [(200, true)] rfl
      (by decide)).1,
    ((debounce_stable_window [(0, true), (10, true), (60, true), (200, true)]
      (by decide) (by decide)).1 [(0, true), (10, true)] (60, true) [(200, true)] rfl
      (by decide)).2.2⟩

/-- C4 as stated fails at exactly 50 ms: after the first update at 0 ms read `true`, the
debounced value is still `false`; at the update at 50 ms the raw sample is unchanged, the
debounced value differs from it and exactly 50 ms have elapsed since the last raw
transition, yet the debounced value and the changed flag stay as they were. -/
theorem debounce_at_50_no_flip :
    (Button.init.update 0 true).switchState ≠ true ∧
      u32sub 50 (if (true != (Button.init.update 0 true).lastReading) then 50
        else (Button.init.update 0 true).lastDebounceTime) ≥ 50 ∧
      ((Button.init.update 0 true).update 50 true).switchState = false ∧
      ((Button.init.update 0 true).update 50 true).stateChanged = false := by
  decide

/-- The effect of one update on the debounced value and the changed flag: with `lastTransition` the time of the last raw change after this update
has recorded one, the update sets the debounced value to the raw sample and sets the changed
flag exactly when the debounced value differs from the raw sample and more than 50 ms have
elapsed (`now - lastTransition > 50` in 32-bit arithmetic); otherwise both are left as they
were. -/
theorem Button.update_cases (b : Button) (now : Nat) (raw : Bool) :
    (b.switchState ≠ raw ∧
        u32sub now (if (raw != b.lastReading) then now else b.lastDebounceTime) > 50 →
      (b.update now raw).switchState = raw ∧ (b.update now raw).stateChanged = true) ∧
    (¬ (b.switchState ≠ raw ∧
        u32sub now (if (raw != b.lastReading) then now else b.lastDebounceTime) > 50) →
      (b.update now raw).switchState = b.switchState ∧
        (b.update now raw).stateChanged = b.stateChanged) := by
  unfold Button.update
  simp only [Button.DEBOUNCE_DELAY]
  by_cases h1 : raw = b.lastReading
  · subst h1
    simp only [bne_self_eq_false, Bool.false_eq_true, if_false]
    by_cases h2 : u32sub now b.lastDebounceTime > 50
    · by_cases h3 : b.lastReading = b.switchState
      · simp [h2, h3]
      · have h3' : ¬ b.switchState = b.lastReading := fun h => h3 h.symm
        simp [h2, h3, h3']
    · simp [h2]
  · have h1' : (raw != b.lastReading) = true := by simpa using h1
    simp [h1', u32sub_self]

/-- C4 (amended): with `lastTransition` the time of the last raw change after this update
has recorded one, the update sets the debounced value to the raw sample and sets the changed
flag exactly when the debounced value differs from the raw sample and more than 50 ms have
elapsed (`now - lastTransition > 50` in 32-bit arithmetic); otherwise both are left as they
were. -/
theorem debounce_update_rule (b : Button) (now : Nat) (raw : Bool) :
    (b.switchState ≠ raw ∧
        u32sub now (if (raw != b.lastReading) then now else b.lastDebounceTime) > 50 →
      (b.update now raw).switchState = raw ∧ (b.update now raw).stateChanged = true) ∧
    (¬ (b.switchState ≠ raw ∧
        u32sub now (if (raw != b.lastReading) then now else b.lastDebounceTime) > 50) →
      (b.update now raw).switchState = b.switchState ∧
        (b.update now raw).stateChanged = b.stateChanged) :=
  Button.update_cases b now raw

theorem debounce_update_rule_witness :
    ((Button.init.update 0 true).update 51 true).switchState = true ∧
      ((Button.init.update 0 true).update 51 true).stateChanged = true :=
  (debounce_update_rule (Button.init.update 0 true) 51 true).1 (by decide)

/-! ## Consuming the changed flag -/

theorem Button.exec_no_flip (ops : List ButtonOp) : ∀ (b : Button),
    Button.flips b ops = false →
      (Button.exec b ops).1.switchState = b.switchState ∧
      ((Button.exec b ops).2.count true ≤ if b.stateChanged then 1 else 0) := by
  induction ops with
  | nil => intro b _; simp [Button.exec]
  | cons op ops ih =>
    intro b h
    cases op with
    | update now raw =>
      simp only [Button.flips, Bool.or_eq_false_iff, bne_eq_false_iff_eq] at h
      obtain ⟨hsw, hrest⟩ := h
      have hch : (b.update now raw).stateChanged = b.stateChanged := by
        have := (Button.update_cases b now raw).2
        by_cases hc : b.switchState ≠ raw ∧
            u32sub now (if (raw != b.lastReading) then now else b.lastDebounceTime) > 50
        · have := ((Button.update_cases b now raw).1 hc).1
          exact absurd (hsw.symm.trans this) hc.1
        · exact (this hc).2
      obtain ⟨h1, h2⟩ := ih _ hrest
      simp only [Button.exec]
      rw [hch] at h2
      exact ⟨h1.trans hsw, h2⟩
    | isOn =>
      simp only [Button.flips] at h
      simpa only [Button.exec] using ih b h
    | stateJustChanged =>
      simp only [Button.flips] at h
      obtain ⟨h1, h2⟩ := ih _ h
      simp only [Button.exec]
      refine ⟨h1, ?_⟩
      simp only [Button.stateJustChanged] at h2 ⊢
      simp only [Bool.false_eq_true, if_false, Nat.le_zero] at h2
      cases hb : b.stateChanged <;> simp [List.count_cons, h2]

/-- C5: `stateJustChanged` returns the changed flag and leaves it cleared, so a second call
right after returns `false`; it changes no other field. `isOn` returns the debounced value.
Over any sequence of calls (`update`, `isOn`, `stateJustChanged`) in which no update changes
the debounced value, the debounced value stays the same and `stateJustChanged` returns
`true` at most once. -/
theorem stateJustChanged_consumes (b : Button) :
    (b.stateJustChanged).1 = b.stateChanged ∧
      (b.stateJustChanged).2.stateChanged = false ∧
      ((b.stateJustChanged).2.stateJustChanged).1 = false ∧
      (b.stateJustChanged).2.switchState = b.switchState ∧
      (b.stateJustChanged).2.lastReading = b.lastReading ∧
      (b.stateJustChanged).2.lastDebounceTime = b.lastDebounceTime ∧
      b.isOn = b.switchState ∧
      (∀ ops, Button.flips b ops = false →
        (Button.exec b ops).1.switchState = b.switchState ∧
          (Button.exec b ops).2.count true ≤ 1) := by
  refine ⟨rfl, rfl, rfl, rfl, rfl, rfl, rfl, ?_⟩
  intro ops h
  obtain ⟨h1, h2⟩ := Button.exec_no_flip ops b h
  refine ⟨h1, le_trans h2 ?_⟩
  split_ifs <;> omega

theorem stateJustChanged_consumes_witness :
    Button.flips (Button.mk true true true 0)
        [ButtonOp.stateJustChanged, ButtonOp.update 10 true, ButtonOp.isOn,
          ButtonOp.stateJustChanged] = false ∧
      (Button.exec (Button.mk true true true 0)
        [ButtonOp.stateJustChanged, ButtonOp.update 10 true, ButtonOp.isOn,
          ButtonOp.stateJustChanged]).2.count true ≤ 1 :=
  ⟨by decide,
    ((stateJustChanged_consumes (Button.mk true true true 0)).2.2.2.2.2.2.2
      [ButtonOp.stateJustChanged, ButtonOp.update 10 true, ButtonOp.isOn,
        ButtonOp.stateJustChanged] (by decide)).2⟩

/-! ## Frame lemmas for the collaborator calls -/

theorem recvMeshTime_eq (csm : ClockStateMachine) (data : List Char) :
    recvMeshTime csm data
      = { csm with display := csm.display ++ (decodeDisplayData data).toList } := by
  unfold recvMeshTime
  cases decodeDisplayData data with
  | none => cases csm; simp
  | some x => simp

theorem pushTimeToMesh_eq (csm : ClockStateMachine) (d1 d2 d3 d4 dot r g b : Int) :
    pushTimeToMesh csm d1 d2 d3 d4 dot r g b
      = { csm with
          display := csm.display
            ++ (decodeDisplayData (encodeDisplayData d1 d2 d3 d4 dot r g b)).toList
          mesh := csm.mesh ++ [encodeDisplayData d1 d2 d3 d4 dot r g b] } := by
  unfold pushTimeToMesh
  simp only [recvMeshTime_eq]

theorem deliver_eq (inbox : List (List Char)) : ∀ (csm : ClockStateMachine),
    ∃ shown, deliver csm inbox = { csm with display := shown } := by
  induction inbox with
  | nil => intro csm; exact ⟨csm.display, by cases csm; rfl⟩
  | cons m ms ih =>
    intro csm
    obtain ⟨shown, h⟩ := ih (recvMeshTime csm m)
    refine ⟨shown, ?_⟩
    show deliver (recvMeshTime csm m) ms = _
    rw [h, recvMeshTime_eq]

theorem updateButtons_stateHandler (csm : ClockStateMachine) (i : TickIn) :
    (updateButtons csm i).stateHandler = csm.stateHandler := rfl

theorem updateButtons_startTime (csm : ClockStateMachine) (i : TickIn) :
    (updateButtons csm i).startTime = csm.startTime := rfl

theorem hidden_text :
    encodeDisplayData (-1) (-1) (-1) (-1) 1 0 0 0 = "-1,-1,-1,-1,1,0,0,0".toList := by
  decide

/-! ## Sleep -/

/-- C6: a pass of `loop()` that starts in Sleep returns, and with the debounced switch
values it has just updated: if power is off the mode stays Sleep (and the epoch is kept);
if power is on the next mode is ManualRed when red-select is on, else Countdown50 when
countdown-select is on, else ManualRainbow, and the epoch is the time `resetTime` read in
that pass. -/
theorem sleep_transition (fuel : Nat) (csm : ClockStateMachine) (i : TickIn)
    (h : csm.stateHandler = some Mode.Sleep) :
    ∃ s, loop fuel csm i = some s ∧
      ((updateButtons csm i).powerSwitch.isOn = false →
        s.stateHandler = some Mode.Sleep ∧ s.startTime = csm.startTime) ∧
      ((updateButtons csm i).powerSwitch.isOn = true →
        s.stateHandler = some
          (if (updateButtons csm i).manualRedSwitch.isOn then Mode.ManualRed
           else if (updateButtons csm i).countdown50Switch.isOn then Mode.Countdown50
           else Mode.ManualRainbow) ∧
        s.startTime = i.tReset) := by
  have hm : (updateButtons csm i).stateHandler = some Mode.Sleep := h
  refine ⟨stateSleep (updateButtons csm i) i, ?_, ?_, ?_⟩
  · simp only [loop, hm]
  · intro hp
    have hs : (updateButtons csm i).startTime = csm.startTime := rfl
    unfold stateSleep
    simp only [pushTimeToMesh_eq]
    split_ifs <;> simp_all
  · intro hp
    unfold stateSleep
    simp only [pushTimeToMesh_eq, resetTime]
    split_ifs <;> simp_all

theorem sleep_transition_witness :
    sleepPoweredOn.stateHandler = some Mode.Sleep ∧
      ∃ s, loop 0 sleepPoweredOn (tickAt 100 true false false true) = some s ∧
        s.stateHandler = some Mode.Countdown50 ∧ s.startTime = 100 :=
  ⟨rfl,
    match sleep_transition 0 sleepPoweredOn (tickAt 100 true false false true) rfl with
    | ⟨s, hs, _, hon⟩ => ⟨s, hs, (hon (by decide)).1, (hon (by decide)).2⟩⟩

/-! ## Power off in a timed mode -/

/-- C7 fails on the code: after the run `exhaustedPowerOffRun` the mode is Countdown50; the
next pass, at 1700700 ms with the power line still off, updates the debounced power switch
to off, its throttle fires, the schedule is exhausted (adjusted elapsed 1670 s), and the
pass returns with the mode still Countdown50. One pass later, 1 ms on, the throttle does
not fire and the mode becomes Sleep. -/
theorem countdown_exhausted_skips_power_off :
    (run 64 (start 0) exhaustedPowerOffRun).map (fun s => s.stateHandler)
        = some (some Mode.Countdown50) ∧
      (run 64 (start 0) exhaustedPowerOffRun).map
          (fun s => (updateButtons s (tickAt 1700700 false false false true)).powerSwitch.isOn)
        = some false ∧
      ((run 64 (start 0) exhaustedPowerOffRun).bind
          (fun s => loop 64 s (tickAt 1700700 false false false true))).map
          (fun s => (s.stateHandler, s.powerSwitch.isOn))
        = some (some Mode.Countdown50, false) ∧
      (((run 64 (start 0) exhaustedPowerOffRun).bind
          (fun s => loop 64 s (tickAt 1700700 false false false true))).bind
          (fun s => loop 64 s (tickAt 1700701 false false false true))).map
          (fun s => s.stateHandler)
        = some (some Mode.Sleep) := by
  decide

/-! ## The first-entry guard of Sleep -/

theorem stateSleep_guard (c : ClockStateMachine) (i : TickIn)
    (h : c.stateHandler = some Mode.Sleep) :
    (stateSleep c i).mesh
        = c.mesh ++ (if c.firstEntry then ["-1,-1,-1,-1,1,0,0,0".toList] else []) ∧
      ((stateSleep c i).stateHandler = some Mode.Sleep → (stateSleep c i).firstEntry = false) ∧
      ((stateSleep c i).stateHandler ≠ some Mode.Sleep → (stateSleep c i).firstEntry = true) := by
  unfold stateSleep
  simp only [pushTimeToMesh_eq, resetTime, hidden_text]
  split_ifs <;> simp_all

theorem stateManualRainbow_firstEntry (c : ClockStateMachine) (i : TickIn) :
    (stateManualRainbow c i).firstEntry = c.firstEntry := by
  unfold stateManualRainbow updateTimeFromMillis
  simp only [pushTimeToMesh_eq, resetTime]
  split_ifs <;> rfl

theorem stateManualRed_firstEntry (c : ClockStateMachine) (i : TickIn) :
    (stateManualRed c i).firstEntry = c.firstEntry := by
  unfold stateManualRed updateTimeFromMillis
  simp only [pushTimeToMesh_eq, resetTime]
  split_ifs <;> rfl

theorem countdown50Transitions_firstEntry (c : ClockStateMachine) (i : TickIn) :
    (countdown50Transitions c i).firstEntry = c.firstEntry := by
  unfold countdown50Transitions
  simp only [resetTime]
  split_ifs <;> rfl

theorem stateCountdown50_firstEntry (fuel : Nat) (c s : ClockStateMachine) (i : TickIn)
    (hs : stateCountdown50 fuel c i = some s) : s.firstEntry = c.firstEntry := by
  unfold stateCountdown50 at hs
  simp only at hs
  split at hs
  · split at hs
    · cases hs
    · split at hs
      · cases hs
        simp [pushTimeToMesh_eq]
      · cases hs
        rw [countdown50Transitions_firstEntry]
        simp [pushTimeToMesh_eq]
  · cases hs
    rw [countdown50Transitions_firstEntry]

theorem loop_sleep (fuel : Nat) (c : ClockStateMachine) (i : TickIn)
    (h : c.stateHandler = some Mode.Sleep) :
    loop fuel c i = some (stateSleep (updateButtons c i) i) := by
  have hm : (updateButtons c i).stateHandler = some Mode.Sleep := h
  simp only [loop, hm]

theorem loop_firstEntry (fuel : Nat) (c s : ClockStateMachine) (i : TickIn)
    (h : c.stateHandler ≠ some Mode.Sleep) (hs : loop fuel c i = some s) :
    s.firstEntry = c.firstEntry := by
  unfold loop at hs
  simp only [updateButtons_stateHandler] at hs
  cases hm : c.stateHandler with
  | none =>
    rw [hm] at hs
    cases hs
    rfl
  | some m =>
    rw [hm] at hs
    cases m with
    | Sleep => exact absurd hm h
    | ManualRainbow =>
      cases hs
      exact stateManualRainbow_firstEntry _ i
    | ManualRed =>
      cases hs
      exact stateManualRed_firstEntry _ i
    | Countdown50 =>
      exact stateCountdown50_firstEntry fuel (updateButtons c i) s i hs

theorem step_sleep (fuel : Nat) (c : ClockStateMachine) (e : Step)
    (h : c.stateHandler = some Mode.Sleep) :
    ∃ s, step fuel c e = some s ∧
      s.mesh = c.mesh ++ (if c.firstEntry then ["-1,-1,-1,-1,1,0,0,0".toList] else []) ∧
      (s.stateHandler = some Mode.Sleep → s.firstEntry = false) ∧
      (s.stateHandler ≠ some Mode.Sleep → s.firstEntry = true) := by
  obtain ⟨shown, hd⟩ := deliver_eq e.inbox c
  have hm : (deliver c e.inbox).stateHandler = some Mode.Sleep := by rw [hd]; exact h
  refine ⟨_, loop_sleep fuel _ e.tick hm, ?_⟩
  have := stateSleep_guard (updateButtons (deliver c e.inbox) e.tick) e.tick hm
  rw [hd] at this ⊢
  exact this

theorem step_firstEntry (fuel : Nat) (c s : ClockStateMachine) (e : Step)
    (h : c.stateHandler ≠ some Mode.Sleep) (hs : step fuel c e = some s) :
    s.firstEntry = c.firstEntry := by
  obtain ⟨shown, hd⟩ := deliver_eq e.inbox c
  have hm : (deliver c e.inbox).stateHandler ≠ some Mode.Sleep := by rw [hd]; exact h
  have := loop_firstEntry fuel (deliver c e.inbox) s e.tick hm hs
  rw [this, hd]

theorem step_guardArmed (fuel : Nat) (c s : ClockStateMachine) (e : Step)
    (hg : GuardArmed c) (hs : step fuel c e = some s) : GuardArmed s := by
  by_cases h : c.stateHandler = some Mode.Sleep
  · obtain ⟨s1, hs1, -, -, harm⟩ := step_sleep fuel c e h
    rw [hs1] at hs
    cases hs
    exact harm
  · intro _
    rw [step_firstEntry fuel c s e h hs]
    exact hg h

theorem run_guardArmed (fuel : Nat) (es : List Step) : ∀ (c s : ClockStateMachine),
    GuardArmed c → run fuel c es = some s → GuardArmed s := by
  induction es with
  | nil =>
    intro c s hg hs
    cases hs
    exact hg
  | cons e es ih =>
    intro c s hg hs
    simp only [run] at hs
    split at hs
    · cases hs
    · next c1 h1 => exact ih c1 s (step_guardArmed fuel c c1 e hg h1) hs

theorem run_append_step (fuel : Nat) (es : List Step) (e : Step) : ∀ (c : ClockStateMachine),
    run fuel c (es ++ [e]) = (run fuel c es).bind (fun c1 => step fuel c1 e) := by
  induction es with
  | nil =>
    intro c
    simp only [List.nil_append, run, Option.some_bind]
    cases step fuel c e <;> rfl
  | cons e1 es ih =>
    intro c
    simp only [List.cons_append, run]
    cases step fuel c e1 with
    | none => rfl
    | some c1 => exact ih c1

/-- C8: in every run from start-up, whenever the mode is not Sleep the first-entry guard is
armed; and a pass that starts in Sleep returns and publishes as follows. If it is the first
pass of the run, or the pass before it started in another mode, it appends exactly one
payload to the mesh log, the hidden state `-1,-1,-1,-1,1,0,0,0`; if the pass before it also
started in Sleep, it appends nothing. -/
theorem sleep_publishes_hidden_once (fuel t0 : Nat) (pre : List Step) (e : Step)
    (s : ClockStateMachine) (hrun : run fuel (start t0) pre = some s) :
    GuardArmed s ∧
      (s.stateHandler = some Mode.Sleep →
        ∃ s1, step fuel s e = some s1 ∧
          (pre = [] → s1.mesh = s.mesh ++ ["-1,-1,-1,-1,1,0,0,0".toList]) ∧
          (∀ pre0 e0 p, pre = pre0 ++ [e0] → run fuel (start t0) pre0 = some p →
            (p.stateHandler ≠ some Mode.Sleep →
              s1.mesh = s.mesh ++ ["-1,-1,-1,-1,1,0,0,0".toList]) ∧
            (p.stateHandler = some Mode.Sleep → s1.mesh = s.mesh))) := by
  have hstart : GuardArmed (start t0) := fun _ => rfl
  refine ⟨run_guardArmed fuel pre _ s hstart hrun, ?_⟩
  intro hsleep
  obtain ⟨s1, hs1, hmesh, -, -⟩ := step_sleep fuel s e hsleep
  refine ⟨s1, hs1, ?_, ?_⟩
  · intro hpre
    subst hpre
    cases hrun
    rw [hmesh]
    rfl
  · intro pre0 e0 p hpre hp
    subst hpre
    rw [run_append_step, hp] at hrun
    have hstep : step fuel p e0 = some s := hrun
    constructor
    · intro hne
      have hfe : s.firstEntry = true := by
        rw [step_firstEntry fuel p s e0 hne hstep]
        exact run_guardArmed fuel pre0 _ p hstart hp hne
      rw [hmesh, hfe]
      rfl
    · intro hp_sleep
      obtain ⟨s2, hs2, -, hoff, -⟩ := step_sleep fuel p e0 hp_sleep
      rw [hs2] at hstep
      cases hstep
      rw [hmesh, hoff hsleep]
      simp

theorem sleep_publishes_hidden_once_witness :
    run 0 (start 0) [] = some (start 0) ∧ (start 0).stateHandler = some Mode.Sleep ∧
      ∃ s1, step 0 (start 0) (Step.mk [] (tickAt 5 false false false false)) = some s1 ∧
        s1.mesh = (start 0).mesh ++ ["-1,-1,-1,-1,1,0,0,0".toList] :=
  ⟨rfl, rfl,
    match (sleep_publishes_hidden_once 0 0 [] (Step.mk [] (tickAt 5 false false false false))
      (start 0) rfl).2 rfl with
    | ⟨s1, h1, h2, _⟩ => ⟨s1, h1, h2 rfl⟩⟩

/-! ## Epoch -/

theorem stateSleep_epoch (c : ClockStateMachine) (i : TickIn)
    (h : c.stateHandler = some Mode.Sleep) :
    (resetsEpoch (some Mode.Sleep) (stateSleep c i).stateHandler = true →
        (stateSleep c i).startTime = i.tReset) ∧
      (resetsEpoch (some Mode.Sleep) (stateSleep c i).stateHandler = false →
        (stateSleep c i).startTime = c.startTime) := by
  unfold stateSleep
  simp only [pushTimeToMesh_eq, resetTime]
  split_ifs <;> simp_all [resetsEpoch]

theorem stateManualRainbow_epoch (c : ClockStateMachine) (i : TickIn)
    (h : c.stateHandler = some Mode.ManualRainbow) :
    (resetsEpoch (some Mode.ManualRainbow) (stateManualRainbow c i).stateHandler = true →
        (stateManualRainbow c i).startTime = i.tReset) ∧
      (resetsEpoch (some Mode.ManualRainbow) (stateManualRainbow c i).stateHandler = false →
        (stateManualRainbow c i).startTime = c.startTime) := by
  unfold stateManualRainbow updateTimeFromMillis
  simp only [pushTimeToMesh_eq, resetTime]
  split_ifs <;> simp_all [resetsEpoch]

theorem stateManualRed_epoch (c : ClockStateMachine) (i : TickIn)
    (h : c.stateHandler = some Mode.ManualRed) :
    (resetsEpoch (some Mode.ManualRed) (stateManualRed c i).stateHandler = true →
        (stateManualRed c i).startTime = i.tReset) ∧
      (resetsEpoch (some Mode.ManualRed) (stateManualRed c i).stateHandler = false →
        (stateManualRed c i).startTime = c.startTime) := by
  unfold stateManualRed updateTimeFromMillis
  simp only [pushTimeToMesh_eq, resetTime]
  split_ifs <;> simp_all [resetsEpoch]

theorem countdown50Transitions_epoch (c : ClockStateMachine) (i : TickIn)
    (h : c.stateHandler = some Mode.Countdown50) :
    (resetsEpoch (some Mode.Countdown50) (countdown50Transitions c i).stateHandler = true →
        (countdown50Transitions c i).startTime = i.tReset) ∧
      (resetsEpoch (some Mode.Countdown50) (countdown50Transitions c i).stateHandler = false →
        (countdown50Transitions c i).startTime = c.startTime) := by
  unfold countdown50Transitions
  simp only [resetTime]
  split_ifs <;> simp_all [resetsEpoch]

theorem stateCountdown50_epoch (fuel : Nat) (c s : ClockStateMachine) (i : TickIn)
    (h : c.stateHandler = some Mode.Countdown50) (hs : stateCountdown50 fuel c i = some s) :
    (resetsEpoch (some Mode.Countdown50) s.stateHandler = true → s.startTime = i.tReset) ∧
      (resetsEpoch (some Mode.Countdown50) s.stateHandler = false →
        s.startTime = c.startTime) := by
  unfold stateCountdown50 at hs
  simp only at hs
  split at hs
  · split at hs
    · cases hs
    · split at hs
      · cases hs
        simp [pushTimeToMesh_eq, h, resetsEpoch]
      · next tot ini _ _ =>
        cases hs
        have hf := countdown50Transitions_epoch
          (pushTimeToMesh { c with lastUpdateCountdown :=
              (shouldUpdate c.lastUpdateCountdown refreshInterval i.tThrottle).2 }
            (countdownFrame (i.tRender % 4294967296)
              (countdownElapsedSec (i.tRender % 4294967296) c.startTime) tot ini).d1
            (countdownFrame (i.tRender % 4294967296)
              (countdownElapsedSec (i.tRender % 4294967296) c.startTime) tot ini).d2
            (countdownFrame (i.tRender % 4294967296)
              (countdownElapsedSec (i.tRender % 4294967296) c.startTime) tot ini).d3
            (countdownFrame (i.tRender % 4294967296)
              (countdownElapsedSec (i.tRender % 4294967296) c.startTime) tot ini).d4
            (countdownFrame (i.tRender % 4294967296)
              (countdownElapsedSec (i.tRender % 4294967296) c.startTime) tot ini).dot
            (countdownFrame (i.tRender % 4294967296)
              (countdownElapsedSec (i.tRender % 4294967296) c.startTime) tot ini).r
            (countdownFrame (i.tRender % 4294967296)
              (countdownElapsedSec (i.tRender % 4294967296) c.startTime) tot ini).g
            (countdownFrame (i.tRender % 4294967296)
              (countdownElapsedSec (i.tRender % 4294967296) c.startTime) tot ini).b) i
          (by simp [pushTimeToMesh_eq, h])
        simpa [pushTimeToMesh_eq] using hf
  · cases hs
    exact countdown50Transitions_epoch _ i h

/-- C9: on every pass of `loop()` that returns, the epoch `startTime` afterwards is the time
read by `resetTime` in that pass when the pass performs one of the transitions Sleep to a
timed mode, ManualRainbow or ManualRed to Countdown50, Countdown50 to ManualRainbow or
ManualRed; on every other pass (ManualRainbow to ManualRed and back, any transition into
Sleep, mode unchanged) the epoch is unchanged. -/
theorem epoch_reset_exactly (fuel : Nat) (csm s : ClockStateMachine) (i : TickIn)
    (hs : loop fuel csm i = some s) :
    (resetsEpoch csm.stateHandler s.stateHandler = true → s.startTime = i.tReset) ∧
      (resetsEpoch csm.stateHandler s.stateHandler = false →
        s.startTime = csm.startTime) := by
  unfold loop at hs
  simp only [updateButtons_stateHandler] at hs
  cases hm : csm.stateHandler with
  | none =>
    rw [hm] at hs
    cases hs
    simp [resetsEpoch, updateButtons_startTime]
  | some m =>
    rw [hm] at hs
    cases m with
    | Sleep =>
      cases hs
      exact stateSleep_epoch _ i hm
    | ManualRainbow =>
      cases hs
      exact stateManualRainbow_epoch _ i hm
    | ManualRed =>
      cases hs
      exact stateManualRed_epoch _ i hm
    | Countdown50 =>
      exact stateCountdown50_epoch fuel (updateButtons csm i) s i hm hs

theorem epoch_reset_exactly_witness :
    loop 0 sleepPoweredOn (tickAt 100 true false false true)
        = some (stateSleep (updateButtons sleepPoweredOn (tickAt 100 true false false true))
            (tickAt 100 true false false true)) ∧
      (stateSleep (updateButtons sleepPoweredOn (tickAt 100 true false false true))
        (tickAt 100 true false false true)).startTime = 100 :=
  ⟨rfl,
    (epoch_reset_exactly 0 sleepPoweredOn
      (stateSleep (updateButtons sleepPoweredOn (tickAt 100 true false false true))
        (tickAt 100 true false false true))
      (tickAt 100 true false false true) rfl).1 (by decide)⟩

/-! ## Elapsed-time formatter -/

theorem elapsedFormatSpec_valid (e : Nat) (r g b : Int)
    (hr : channelOk r) (hg : channelOk g) (hb : channelOk b) :
    (elapsedFormatSpec e r g b).valid := by
  unfold channelOk at hr hg hb
  have hs : (e / 1000) % 3600 < 3600 := Nat.mod_lt _ (by decide)
  simp only [RenderState.valid, elapsedFormatSpec, digitOk, channelOk]
  refine ⟨?_, ?_, ?_, ?_, ?_, ?_, ?_, ?_⟩
  · split_ifs <;> omega
  · omega
  · omega
  · omega
  · split_ifs <;> omega
  · split_ifs <;> omega
  · split_ifs <;> omega
  · split_ifs <;> omega

theorem updateTimeFromMillis_eq (csm : ClockStateMachine) (now : Nat) (r g b : Int)
    (h1 : csm.startTime ≤ now) (h2 : now < 4294967296) :
    updateTimeFromMillis csm now r g b
      = pushTimeToMesh csm
          (elapsedFormatSpec (now - csm.startTime) r g b).d1
          (elapsedFormatSpec (now - csm.startTime) r g b).d2
          (elapsedFormatSpec (now - csm.startTime) r g b).d3
          (elapsedFormatSpec (now - csm.startTime) r g b).d4
          (elapsedFormatSpec (now - csm.startTime) r g b).dot
          (elapsedFormatSpec (now - csm.startTime) r g b).r
          (elapsedFormatSpec (now - csm.startTime) r g b).g
          (elapsedFormatSpec (now - csm.startTime) r g b).b := by
  have hs : ((now - csm.startTime) / 1000) % 3600 < 3600 := Nat.mod_lt _ (by decide)
  have hm : ((now - csm.startTime) / 1000) % 3600 / 60 < 60 := by omega
  have hm256 : ((now - csm.startTime) / 1000) % 3600 / 60 % 256
      = ((now - csm.startTime) / 1000) % 3600 / 60 := Nat.mod_eq_of_lt (by omega)
  have hsec : ((now - csm.startTime) / 1000) % 3600 % 60 % 256
      = ((now - csm.startTime) / 1000) % 3600 % 60 := Nat.mod_eq_of_lt (by omega)
  have hd4 : ((now - csm.startTime) / 1000) % 3600 % 60 % 10
      = ((now - csm.startTime) / 1000) % 3600 % 10 := by omega
  have hcol : ((now - csm.startTime) / 1000 ≥ 14400) ↔ (now - csm.startTime ≥ 14400000) := by
    constructor <;> intro h <;> omega
  have hd1 : (((now - csm.startTime) / 1000) % 3600 / 60 / 10 = 0)
      ↔ (((now - csm.startTime) / 1000) % 3600 / 60 < 10) := by
    constructor <;> intro h <;> omega
  unfold updateTimeFromMillis elapsedFormatSpec
  simp only [u32sub_of_le now csm.startTime h1 h2, hm256, hsec, hd4, hd1, hcol]
  split_ifs <;> rfl

/-- C10: for every epoch, every 32-bit `now` at or after it and every input colour,
`updateTimeFromMillis` calls `pushTimeToMesh` with the fields the specification gives for
`e = now - epoch`; for 8-bit colour channels that record is what the display receives and
its encoding is what is published. In particular `e = 0` gives digits (blank,0,0,0),
`e = 3661000` gives digits (blank,1,0,1), and `e >= 14400000` gives colour (0,0,0). -/
theorem elapsed_formatter_output (csm : ClockStateMachine) (now : Nat) (r g b : Int)
    (h1 : csm.startTime ≤ now) (h2 : now < 4294967296) :
    updateTimeFromMillis csm now r g b
        = pushTimeToMesh csm
            (elapsedFormatSpec (now - csm.startTime) r g b).d1
            (elapsedFormatSpec (now - csm.startTime) r g b).d2
            (elapsedFormatSpec (now - csm.startTime) r g b).d3
            (elapsedFormatSpec (now - csm.startTime) r g b).d4
            (elapsedFormatSpec (now - csm.startTime) r g b).dot
            (elapsedFormatSpec (now - csm.startTime) r g b).r
            (elapsedFormatSpec (now - csm.startTime) r g b).g
            (elapsedFormatSpec (now - csm.startTime) r g b).b ∧
      (channelOk r → channelOk g → channelOk b →
        (updateTimeFromMillis csm now r g b).display
            = csm.display ++ [elapsedFormatSpec (now - csm.startTime) r g b] ∧
          (updateTimeFromMillis csm now r g b).mesh
            = csm.mesh ++ [formatDisplayData
                (elapsedFormatSpec (now - csm.startTime) r g b).d1
                (elapsedFormatSpec (now - csm.startTime) r g b).d2
                (elapsedFormatSpec (now - csm.startTime) r g b).d3
                (elapsedFormatSpec (now - csm.startTime) r g b).d4
                (elapsedFormatSpec (now - csm.startTime) r g b).dot
                (elapsedFormatSpec (now - csm.startTime) r g b).r
                (elapsedFormatSpec (now - csm.startTime) r g b).g
                (elapsedFormatSpec (now - csm.startTime) r g b).b]) ∧
      (now - csm.startTime = 0 →
        updateTimeFromMillis csm now r g b = pushTimeToMesh csm (-1) 0 0 0 3 r g b) ∧
      (now - csm.startTime = 3661000 →
        updateTimeFromMillis csm now r g b = pushTimeToMesh csm (-1) 1 0 1 3 r g b) ∧
      (now - csm.startTime ≥ 14400000 →
        (elapsedFormatSpec (now - csm.startTime) r g b).r = 0 ∧
          (elapsedFormatSpec (now - csm.startTime) r g b).g = 0 ∧
          (elapsedFormatSpec (now - csm.startTime) r g b).b = 0) ∧
      (now - csm.startTime < 14400000 →
        (elapsedFormatSpec (now - csm.startTime) r g b).r = r ∧
          (elapsedFormatSpec (now - csm.startTime) r g b).g = g ∧
          (elapsedFormatSpec (now - csm.startTime) r g b).b = b) := by
  have heq := updateTimeFromMillis_eq csm now r g b h1 h2
  refine ⟨heq, ?_, ?_, ?_, ?_, ?_⟩
  · intro hr hg hb
    have hv := elapsedFormatSpec_valid (now - csm.startTime) r g b hr hg hb
    rw [heq, pushTimeToMesh_eq, decode_encode_valid _ hv, encode_eq_format _ hv]
    exact ⟨rfl, rfl⟩
  · intro h0
    rw [heq, h0]
    rfl
  · intro h0
    rw [heq, h0]
    rfl
  · intro h0
    simp only [elapsedFormatSpec, h0, if_true, and_self]
  · intro h0
    have : ¬ (now - csm.startTime ≥ 14400000) := by omega
    simp only [elapsedFormatSpec, this, if_false, and_self]

theorem elapsed_formatter_output_witness :
    (start 0).startTime ≤ 3661000 ∧ 3661000 < 4294967296 ∧
      updateTimeFromMillis (start 0) 3661000 255 0 0
        = pushTimeToMesh (start 0) (-1) 1 0 1 3 255 0 0 :=
  ⟨by decide, by decide,
    (elapsed_formatter_output (start 0) 3661000 255 0 0 (by decide) (by decide)).2.2.2.1 rfl⟩

/-! ## The round search -/

theorem roundStart_succ (k : Nat) : roundStart (k + 1) = roundStart k + (60 - (k : Int)) := by
  simp [roundStart, List.range_succ]

theorem roundStart_zero : roundStart 0 = 0 := rfl

theorem roundStart_bounds : ∀ k, k ≤ 61 → 0 ≤ roundStart k ∧ roundStart k ≤ 1830 := by
  decide

theorem roundStart_40 : roundStart 40 = 1620 := by decide

theorem roundStart_61 : roundStart 61 = 1830 := by decide

theorem roundStart_mono (a b : Nat) (hab : a ≤ b) (hb : b ≤ 61) :
    roundStart a ≤ roundStart b := by
  induction b with
  | zero =>
    have : a = 0 := by omega
    subst this
    exact le_refl _
  | succ n ih =>
    by_cases h : a = n + 1
    · subst h; exact le_refl _
    · have := ih (by omega) (by omega)
      rw [roundStart_succ]
      omega

/-- The round in which a non-negative elapsed value below 1830 lies. -/
theorem exists_round (e : Int) (h0 : 0 ≤ e) (h1 : e < 1830) :
    ∃ j, j ≤ 60 ∧ roundStart j ≤ e ∧ e < roundStart (j + 1) := by
  have key : ∀ m, m ≤ 61 → e < roundStart m →
      ∃ j, j < m ∧ roundStart j ≤ e ∧ e < roundStart (j + 1) := by
    intro m
    induction m with
    | zero => intro _ h; rw [roundStart_zero] at h; omega
    | succ n ih =>
      intro hn h
      by_cases hle : roundStart n ≤ e
      · exact ⟨n, by omega, hle, h⟩
      · obtain ⟨j, hj, h2, h3⟩ := ih (by omega) (by omega)
        exact ⟨j, by omega, h2, h3⟩
  obtain ⟨j, hj, h2, h3⟩ := key 61 (le_refl _) (by rw [roundStart_61]; exact h1)
  exact ⟨j, by omega, h2, h3⟩

theorem wrapI32_of_bounds (x : Int) (h0 : -2147483648 ≤ x) (h1 : x ≤ 2147483647) :
    wrapI32 x = x := by
  unfold wrapI32
  omega

theorem wrapI32_below (x : Int) (h0 : -2147483776 ≤ x) (h1 : x < -2147483648) :
    wrapI32 x = x + 4294967296 := by
  unfold wrapI32
  omega

theorem toI8_of_bounds (x : Int) (h0 : -128 ≤ x) (h1 : x ≤ 127) : toI8 x = x := by
  unfold toI8
  omega

/-- The round search from the start of round `k` when the elapsed value lies in round `j`:
it exits with the variables of round `j` as soon as `fuel` allows `j - k + 1` tests. -/
theorem roundSearch_round (e : Int) (j : Nat) (hj : j ≤ 60) (hlo : roundStart j ≤ e)
    (hhi : e < roundStart (j + 1)) : ∀ (fuel k : Nat), k ≤ j →
    roundSearch fuel e (roundStart k) (60 - (k : Int))
      = if j - k + 1 ≤ fuel then some (roundStart j, 60 - (j : Int)) else none := by
  intro fuel
  induction fuel with
  | zero =>
    intro k _
    rw [if_neg (by omega)]
    rfl
  | succ n ih =>
    intro k hk
    have hb := roundStart_bounds (k + 1) (by omega)
    rw [roundStart_succ] at hb
    rw [roundSearch, wrapI32_of_bounds _ (by omega) (by omega)]
    by_cases hkj : k = j
    · subst hkj
      rw [roundStart_succ] at hhi
      rw [if_neg (by omega), if_pos (by omega)]
    · have hm := roundStart_mono (k + 1) j (by omega) (by omega)
      rw [roundStart_succ] at hm
      rw [if_pos (by omega), toI8_of_bounds _ (by omega) (by omega)]
      have := ih (k + 1) (by omega)
      rw [roundStart_succ] at this
      have hc : (60 : Int) - ((k + 1 : Nat) : Int) = 60 - (k : Int) - 1 := by push_cast; ring
      rw [hc] at this
      rw [this]
      by_cases hf : j - (k + 1) + 1 ≤ n
      · rw [if_pos hf, if_pos (by omega)]
      · rw [if_neg hf, if_neg (by omega)]

/-- During the pre-roll (negative elapsed value) the search exits at once in round 0. -/
theorem roundSearch_preroll (e : Int) (he : e < 0) (fuel : Nat) :
    roundSearch (fuel + 1) e 0 60 = some (0, 60) := by
  rw [roundSearch, wrapI32_of_bounds _ (by omega) (by omega)]
  rw [if_neg (by omega)]

/-- From 1830 s on the loop condition stays true while the sum is representable:
`totalSec + d (d + 1) / 2` never exceeds 1830, also across the wrap of the 8-bit duration.
The search can therefore only exit where the sum has left the `int32_t` range, and there
the duration is negative. -/
theorem roundSearch_late_sound (e : Int) (he : 1830 ≤ e) (hmax : e < 2147483520) :
    ∀ (fuel : Nat) (T d : Int), -128 ≤ d → d ≤ 127 → -2147483648 ≤ T →
      2 * T + d * (d + 1) ≤ 3660 →
      ∀ T1 d1 : Int, roundSearch fuel e T d = some (T1, d1) → d1 < 0 := by
  intro fuel
  induction fuel with
  | zero =>
    intro T d _ _ _ _ T1 d1 h
    have hz : roundSearch 0 e T d = none := rfl
    rw [hz] at h
    cases h
  | succ n ih =>
    intro T d h0 h1 hT hinv T1 d1 h
    have hsq : 0 ≤ d * (d - 1) := by
      rcases le_or_lt d 0 with hd | hd
      · exact mul_nonneg_of_nonpos_of_nonpos hd (by omega)
      · exact mul_nonneg (by omega) (by omega)
    have hTd : T + d ≤ 1830 := by nlinarith
    by_cases hov : -2147483648 ≤ T + d
    · rw [roundSearch, wrapI32_of_bounds _ hov (by omega), if_pos (by omega)] at h
      by_cases hw : d = -128
      · subst hw
        have h8 : toI8 (-128 - 1) = 127 := by decide
        rw [h8] at h
        exact ih _ _ (by omega) (by omega) hov (by omega) T1 d1 h
      · rw [toI8_of_bounds _ (by omega) (by omega)] at h
        exact ih _ _ (by omega) (by omega) hov (by nlinarith) T1 d1 h
    · rw [roundSearch, wrapI32_below _ (by omega) (by omega), if_neg (by omega)] at h
      cases h
      omega

/-- The search always exits: `2 totalSec + (d + 1)^2` falls by one with every pass through
the loop body and cannot fall below `-2^32`. -/
theorem roundSearch_exits (e : Int) (hmax : e < 2147483520) :
    ∀ (fuel : Nat) (T d : Int), -128 ≤ d → d ≤ 127 → -2147483648 ≤ T →
      2 * T + d * (d + 1) ≤ 3660 →
      2 * T + (d + 1) * (d + 1) + 4294967423 < (fuel : Int) →
      ∃ r, roundSearch fuel e T d = some r := by
  intro fuel
  induction fuel with
  | zero =>
    intro T d _ _ hT _ hN
    have hsq : 0 ≤ (d + 1) * (d + 1) := mul_self_nonneg _
    simp only [Nat.cast_zero] at hN
    exfalso
    linarith
  | succ n ih =>
    intro T d h0 h1 hT hinv hN
    have hsq : 0 ≤ d * (d - 1) := by
      rcases le_or_lt d 0 with hd | hd
      · exact mul_nonneg_of_nonpos_of_nonpos hd (by omega)
      · exact mul_nonneg (by omega) (by omega)
    have hTd : T + d ≤ 1830 := by nlinarith
    have hN1 : 2 * T + (d + 1) * (d + 1) + 4294967423 < (n : Int) + 1 := by
      have := hN
      push_cast at this
      exact this
    by_cases hov : -2147483648 ≤ T + d
    · rw [roundSearch, wrapI32_of_bounds _ hov (by omega)]
      by_cases hc : e ≥ T + d
      · rw [if_pos hc]
        by_cases hw : d = -128
        · subst hw
          have h8 : toI8 (-128 - 1) = 127 := by decide
          rw [h8]
          refine ih _ _ (by omega) (by omega) hov (by omega) ?_
          norm_num at hN1 ⊢
          omega
        · rw [toI8_of_bounds _ (by omega) (by omega)]
          refine ih _ _ (by omega) (by omega) hov (by nlinarith) ?_
          nlinarith
      · rw [if_neg hc]
        exact ⟨_, rfl⟩
    · rw [roundSearch, wrapI32_below _ (by omega) (by omega), if_neg (by omega)]
      exact ⟨_, rfl⟩

theorem roundSearch_terminates (e : Int) (hmax : e < 2147483520) (fuel : Nat)
    (hf : 4294971145 ≤ fuel) : ∃ r, roundSearch fuel e 0 60 = some r := by
  refine roundSearch_exits e hmax fuel 0 60 (by omega) (by omega) (by omega) (by norm_num) ?_
  have : (4294971145 : Int) ≤ (fuel : Int) := by exact_mod_cast hf
  norm_num
  omega

theorem loop_countdown (fuel : Nat) (c : ClockStateMachine) (i : TickIn)
    (h : c.stateHandler = some Mode.Countdown50) :
    loop fuel c i = stateCountdown50 fuel (updateButtons c i) i := by
  have hm : (updateButtons c i).stateHandler = some Mode.Countdown50 := h
  simp only [loop, hm]

theorem roundSearch_exhausted (e : Int) (h0 : 1620 ≤ e) (h1 : e < 1830) (fuel : Nat)
    (hf : 61 ≤ fuel) : ∃ T d, roundSearch fuel e 0 60 = some (T, d) ∧ d ≤ 20 := by
  obtain ⟨j, hj, hlo, hhi⟩ := exists_round e (by omega) h1
  have h := roundSearch_round e j hj hlo hhi fuel 0 (Nat.zero_le _)
  rw [roundStart_zero] at h
  simp only [Nat.cast_zero, sub_zero] at h
  rw [if_pos (by omega)] at h
  refine ⟨_, _, h, ?_⟩
  by_contra hd
  have hj39 : j + 1 ≤ 40 := by omega
  have := roundStart_mono (j + 1) 40 hj39 (by omega)
  rw [roundStart_40] at this
  omega

theorem countdownElapsedSec_eq (now startTime : Nat) :
    countdownElapsedSec now startTime = ((u32sub now startTime / 1000 : Nat) : Int) - 30 := by
  have hx : u32sub now startTime < 4294967296 := by unfold u32sub; omega
  unfold countdownElapsedSec
  generalize u32sub now startTime = x at hx ⊢
  unfold toI32 u32sub
  split_ifs <;> omega

/-- The adjusted elapsed value is a quotient of a 32-bit count of milliseconds less 30 s. -/
theorem countdownElapsedSec_bounds (now startTime : Nat) :
    -30 ≤ countdownElapsedSec now startTime ∧ countdownElapsedSec now startTime ≤ 4294937 := by
  have hx : u32sub now startTime < 4294967296 := by unfold u32sub; omega
  rw [countdownElapsedSec_eq]
  omega

/-- From 1620 s on, every exit of the search leaves a duration of at most 20. -/
theorem roundSearch_exhausted_sound (e : Int) (h0 : 1620 ≤ e) (hmax : e < 2147483520)
    (fuel : Nat) (T d : Int) (h : roundSearch fuel e 0 60 = some (T, d)) : d ≤ 20 := by
  by_cases h1 : e < 1830
  · obtain ⟨j, hj, hlo, hhi⟩ := exists_round e (by omega) h1
    have hr := roundSearch_round e j hj hlo hhi fuel 0 (Nat.zero_le _)
    rw [roundStart_zero] at hr
    simp only [Nat.cast_zero, sub_zero] at hr
    rw [hr] at h
    split at h
    · cases h
      by_contra hd
      have hj39 : j + 1 ≤ 40 := by omega
      have := roundStart_mono (j + 1) 40 hj39 (by omega)
      rw [roundStart_40] at this
      omega
    · cases h
  · have := roundSearch_late_sound e (by omega) hmax fuel 0 60 (by omega) (by omega)
      (by omega) (by norm_num) T d h
    omega

/-- Before 1620 s, every exit of the search leaves a duration above 20. -/
theorem roundSearch_active_sound (e : Int) (hlo : -30 ≤ e) (h1 : e < 1620)
    (fuel : Nat) (T d : Int) (h : roundSearch fuel e 0 60 = some (T, d)) : 20 < d := by
  by_cases hneg : e < 0
  · cases fuel with
    | zero => cases h
    | succ n =>
      rw [roundSearch_preroll e hneg n] at h
      cases h
      omega
  · obtain ⟨j, hj, hjlo, hjhi⟩ := exists_round e (by omega) (by omega)
    have hr := roundSearch_round e j hj hjlo hjhi fuel 0 (Nat.zero_le _)
    rw [roundStart_zero] at hr
    simp only [Nat.cast_zero, sub_zero] at hr
    rw [hr] at h
    split at h
    · cases h
      by_contra hd
      have := roundStart_mono 40 j (by omega) (by omega)
      rw [roundStart_40] at this
      omega
    · cases h

/-- From 1620 s on the search exits, within the number of tests that the 32-bit total
allows, with a duration of at most 20. -/
theorem roundSearch_exhausted_exits (e : Int) (h0 : 1620 ≤ e) (hmax : e < 2147483520)
    (fuel : Nat) (hf : 4294971145 ≤ fuel) :
    ∃ T d, roundSearch fuel e 0 60 = some (T, d) ∧ d ≤ 20 := by
  obtain ⟨⟨T, d⟩, h⟩ := roundSearch_terminates e hmax fuel hf
  exact ⟨T, d, h, roundSearch_exhausted_sound e h0 hmax fuel T d h⟩

/-- A pass of the handler that renders at an adjusted elapsed value from 1620 s on
publishes the hidden state and returns. -/
theorem stateCountdown50_exhausted (fuel : Nat) (c : ClockStateMachine) (i : TickIn)
    (hfire : (shouldUpdate c.lastUpdateCountdown refreshInterval i.tThrottle).1 = true)
    (hlate : 1620 ≤ countdownElapsedSec (i.tRender % 4294967296) c.startTime)
    (hf : 4294971145 ≤ fuel) :
    stateCountdown50 fuel c i
      = some (pushTimeToMesh
          { c with
            lastUpdateCountdown :=
              (shouldUpdate c.lastUpdateCountdown refreshInterval i.tThrottle).2 }
          (-1) (-1) (-1) (-1) 1 0 0 0) := by
  have hb := countdownElapsedSec_bounds (i.tRender % 4294967296) c.startTime
  obtain ⟨T, d, hs, hd⟩ := roundSearch_exhausted_exits _ hlate (by omega) fuel hf
  unfold stateCountdown50
  simp only [hfire, if_true, hs, if_pos hd]

/-- C11: the adjusted elapsed value of the countdown engine always lies in -30..4294937
(a 32-bit count of milliseconds, divided by 1000, less 30). For every such value from 1620
on, the round search exits (4294971145 tests of its condition always suffice; from 1830 s
on the exit only comes when the 32-bit running total wraps, with a negative duration) and
every exit leaves a duration of at most 20, so a rendering pass of the engine publishes the
hidden state `(-1,-1,-1,-1,1,0,0,0)`; for every value below 1620 every exit leaves a
duration above 20. Hence an engine exhausted at one elapsed value is exhausted at every
larger one. The pass of `loop()` at 1860100 ms from the reachable state `countdownRunning`
(epoch 100 ms, adjusted elapsed 1830 s) publishes the hidden state and stays in the
countdown mode. -/
theorem exhausted_from_1620_on :
    (∀ now startTime : Nat, -30 ≤ countdownElapsedSec now startTime ∧
        countdownElapsedSec now startTime ≤ 4294937) ∧
      (∀ e : Int, 1620 ≤ e → e ≤ 4294937 → ∀ fuel : Nat, 4294971145 ≤ fuel →
        ∃ T d, roundSearch fuel e 0 60 = some (T, d) ∧ d ≤ 20) ∧
      (∀ e : Int, 1620 ≤ e → e ≤ 4294937 → ∀ (fuel : Nat) (T d : Int),
        roundSearch fuel e 0 60 = some (T, d) → d ≤ 20) ∧
      (∀ e : Int, -30 ≤ e → e < 1620 → ∀ (fuel : Nat) (T d : Int),
        roundSearch fuel e 0 60 = some (T, d) → 20 < d) ∧
      (∀ e1 e2 : Int, -30 ≤ e1 → e1 ≤ e2 → e2 ≤ 4294937 →
        (∃ (fuel : Nat) (T d : Int), roundSearch fuel e1 0 60 = some (T, d) ∧ d ≤ 20) →
        (∀ (fuel : Nat) (T d : Int), roundSearch fuel e2 0 60 = some (T, d) → d ≤ 20) ∧
          ∃ T d, roundSearch 4294971145 e2 0 60 = some (T, d) ∧ d ≤ 20) ∧
      (∀ (c : ClockStateMachine) (i : TickIn) (fuel : Nat),
        (shouldUpdate c.lastUpdateCountdown refreshInterval i.tThrottle).1 = true →
        1620 ≤ countdownElapsedSec (i.tRender % 4294967296) c.startTime →
        4294971145 ≤ fuel →
        stateCountdown50 fuel c i
          = some (pushTimeToMesh
              { c with
                lastUpdateCountdown :=
                  (shouldUpdate c.lastUpdateCountdown refreshInterval i.tThrottle).2 }
              (-1) (-1) (-1) (-1) 1 0 0 0)) ∧
      run 0 (start 0) (exhaustedPowerOffRun.take 2) = some countdownRunning ∧
      countdownElapsedSec 1860100 100 = 1830 ∧
      (loop 4294971145 countdownRunning (tickAt 1860100 true false false true)).map
          (fun s => (s.display.getLast?, s.mesh.getLast?, s.stateHandler))
        = some (some hidden, some "-1,-1,-1,-1,1,0,0,0".toList, some Mode.Countdown50) := by
  refine ⟨countdownElapsedSec_bounds, ?_, ?_, ?_, ?_, ?_, by decide, by decide, ?_⟩
  · intro e h0 h1 fuel hf
    exact roundSearch_exhausted_exits e h0 (by omega) fuel hf
  · intro e h0 h1 fuel T d h
    exact roundSearch_exhausted_sound e h0 (by omega) fuel T d h
  · intro e h0 h1 fuel T d h
    exact roundSearch_active_sound e h0 h1 fuel T d h
  · intro e1 e2 h0 h12 h2 ⟨fuel, T, d, h, hd⟩
    have h1620 : 1620 ≤ e1 := by
      by_contra hc
      have := roundSearch_active_sound e1 h0 (by omega) fuel T d h
      omega
    exact ⟨fun fuel2 T2 d2 h2s =>
        roundSearch_exhausted_sound e2 (by omega) (by omega) fuel2 T2 d2 h2s,
      roundSearch_exhausted_exits e2 (by omega) (by omega) _ (le_refl _)⟩
  · intro c i fuel hfire hlate hf
    exact stateCountdown50_exhausted fuel c i hfire hlate hf
  · rw [loop_countdown _ _ _ rfl,
      stateCountdown50_exhausted _ _ _ (by decide) (by decide) (le_refl _)]
    decide

/-! ## Rounds inside the schedule -/

theorem roundSearch_active (e : Int) (h0 : 0 ≤ e) (h1 : e < 1620) (fuel : Nat)
    (hf : 40 ≤ fuel) :
    ∃ k, k ≤ 39 ∧ roundSearch fuel e 0 60 = some (roundStart k, 60 - (k : Int)) ∧
      roundStart k ≤ e ∧ e < roundStart k + (60 - (k : Int)) ∧
      (∀ k1 : Nat, roundStart k1 ≤ e → e < roundStart k1 + (60 - (k1 : Int)) → k1 = k) := by
  obtain ⟨j, hj, hlo, hhi⟩ := exists_round e h0 (by omega)
  have hj39 : j ≤ 39 := by
    by_contra hc
    have := roundStart_mono 40 j (by omega) (by omega)
    rw [roundStart_40] at this
    omega
  have h := roundSearch_round e j hj hlo hhi fuel 0 (Nat.zero_le _)
  rw [roundStart_zero] at h
  simp only [Nat.cast_zero, sub_zero] at h
  rw [if_pos (by omega)] at h
  have hhi1 := hhi
  rw [roundStart_succ] at hhi1
  refine ⟨j, hj39, h, hlo, hhi1, ?_⟩
  intro k1 hk1 hk2
  have hk60 : k1 < 60 := by omega
  rw [← roundStart_succ] at hk2
  by_contra hne
  rcases Nat.lt_or_gt_of_ne hne with hlt | hgt
  · have := roundStart_mono (k1 + 1) j (by omega) (by omega)
    omega
  · have := roundStart_mono (j + 1) k1 (by omega) (by omega)
    omega

/-- C12: for every adjusted elapsed value `e` with `0 <= e < 1620`, the round search, given
at least 40 tests of its condition, exits with running total `roundStart k` (the sum of
`60 - i` for `i < k`) and duration `60 - k`, where `k` is the one round index with
`roundStart k <= e < roundStart k + (60 - k)`; so `21 <= d <= 60` and the time spent in the
round `e - T` satisfies `0 <= e - T < d`. -/
theorem round_search_result (e : Int) (h0 : 0 ≤ e) (h1 : e < 1620) (fuel : Nat)
    (hf : 40 ≤ fuel) :
    ∃ k : Nat, roundSearch fuel e 0 60 = some (roundStart k, 60 - (k : Int)) ∧
      roundStart k ≤ e ∧ e < roundStart k + (60 - (k : Int)) ∧
      (∀ k1 : Nat, roundStart k1 ≤ e → e < roundStart k1 + (60 - (k1 : Int)) → k1 = k) ∧
      21 ≤ 60 - (k : Int) ∧ 60 - (k : Int) ≤ 60 ∧
      0 ≤ e - roundStart k ∧ e - roundStart k < 60 - (k : Int) := by
  obtain ⟨k, hk, hs, hlo, hhi, huniq⟩ := roundSearch_active e h0 h1 fuel hf
  exact ⟨k, hs, hlo, hhi, huniq, by omega, by omega, by omega, by omega⟩

theorem round_search_result_witness :
    ∃ k : Nat, roundSearch 40 100 0 60 = some (roundStart k, 60 - (k : Int)) ∧
      roundStart k ≤ 100 ∧ (100 : Int) < roundStart k + (60 - (k : Int)) :=
  match round_search_result 100 (by decide) (by decide) 40 (by decide) with
  | ⟨k, hs, hlo, hhi, _⟩ => ⟨k, hs, hlo, hhi⟩

/-! ## The frame of an active round -/

theorem frame_roundElapsed (T d t : Nat) :
    toU32 (if ((T : Int) + (t : Int)) < 0 then (d : Int) + ((T : Int) + (t : Int))
      else (T : Int) + (t : Int) - (T : Int)) = t % 4294967296 := by
  rw [if_neg (by omega)]
  unfold toU32
  omega

theorem frame_threshold (d : Nat) :
    toU32 (if (d : Int) < 30 then 12 else 22) = if d < 30 then 12 else 22 := by
  by_cases h : d < 30
  · rw [if_pos h, if_pos (by omega)]; rfl
  · rw [if_neg h, if_neg (by omega)]; rfl

theorem frame_prepRemaining (t : Nat) : u32sub 10 (t % 10) % 256 = 10 - t % 10 := by
  unfold u32sub
  omega

theorem frame_mainRemaining (d t : Nat) (hd : d ≤ 60) (ht : t < d) :
    u32sub (toU32 (d : Int)) (t % toU32 (d : Int)) % 256 = d - t := by
  have h1 : toU32 (d : Int) = d := by unfold toU32; omega
  rw [h1, Nat.mod_eq_of_lt ht]
  unfold u32sub
  omega

theorem frame_shown (d : Nat) (hd : d ≤ 60) :
    toU8 (if (d : Int) = 60 then 0 else (d : Int) + 1) = if d = 60 then 0 else d + 1 := by
  by_cases h : d = 60
  · rw [if_pos h, if_pos (by omega)]; rfl
  · rw [if_neg h, if_neg (by omega)]
    unfold toU8
    omega

/-- The frame in the prep sub-phase while the sub-countdown is above 8. -/
theorem countdownFrame_prep_red (now T d t : Nat) (hd : d ≤ 60) (ht : t < d)
    (hp : t < (if d < 30 then 12 else 22)) (hr : 8 < 10 - t % 10) :
    countdownFrame now ((T : Int) + (t : Int)) (T : Int) (d : Int)
      = { d1 := if t < 2 then 1 else if t < 12 then 2 else 3
          d2 := -1
          d3 := (((if d = 60 then 0 else d + 1) / 10 : Nat) : Int)
          d4 := (((if d = 60 then 0 else d + 1) % 10 : Nat) : Int)
          dot := if now % 1000 < 500 then 3 else 4
          r := 255, g := 0, b := 0 } := by
  have ht32 : t % 4294967296 = t := Nat.mod_eq_of_lt (by omega)
  unfold countdownFrame
  simp only [frame_roundElapsed, frame_threshold, frame_prepRemaining, frame_shown d hd, ht32,
    hp, hr, if_true, gt_iff_lt]
  split_ifs <;> simp_all

/-- The frame in the prep sub-phase while the sub-countdown is at most 8. -/
theorem countdownFrame_prep_low (now T d t : Nat) (hd : d ≤ 60) (ht : t < d)
    (hp : t < (if d < 30 then 12 else 22)) (hr : ¬ 8 < 10 - t % 10) :
    countdownFrame now ((T : Int) + (t : Int)) (T : Int) (d : Int)
      = { d1 := if t < 2 then 1 else if t < 12 then 2 else 3
          d2 := -1
          d3 := (((10 - t % 10) / 10 : Nat) : Int)
          d4 := (((10 - t % 10) % 10 : Nat) : Int)
          dot := if now % 1000 < 500 then 3 else 4
          r := if 10 - t % 10 > 6 then 100 else 255
          g := if 10 - t % 10 > 3 then 255 else 100
          b := 0 } := by
  have ht32 : t % 4294967296 = t := Nat.mod_eq_of_lt (by omega)
  unfold countdownFrame
  simp only [frame_roundElapsed, frame_threshold, frame_prepRemaining, ht32,
    hp, hr, if_true, if_false, gt_iff_lt]
  split_ifs <;> (try simp_all) <;> omega

/-- The frame in the main phase of a round. -/
theorem countdownFrame_main (now T d t : Nat) (hd : d ≤ 60) (ht : t < d)
    (hp : ¬ t < (if d < 30 then 12 else 22)) :
    countdownFrame now ((T : Int) + (t : Int)) (T : Int) (d : Int)
      = { d1 := if d - t ≤ 10 then 1 else -1
          d2 := -1
          d3 := (((d - t) / 10 : Nat) : Int)
          d4 := (((d - t) % 10 : Nat) : Int)
          dot := if now % 1000 < 500 then 3 else 4
          r := if d - t > 6 then 100 else 255
          g := if d - t > 3 then 255 else 100
          b := 0 } := by
  have ht32 : t % 4294967296 = t := Nat.mod_eq_of_lt (by omega)
  unfold countdownFrame
  simp only [frame_roundElapsed, frame_threshold, frame_mainRemaining d t hd ht, ht32,
    hp, if_false, gt_iff_lt]
  split_ifs <;> (try simp_all) <;> omega

/-- The frame during the pre-roll, `s` seconds before round 0 begins. -/
theorem countdownFrame_preroll (now s : Nat) (h0 : 1 ≤ s) (h1 : s ≤ 30) :
    countdownFrame now (-(s : Int)) 0 60
      = { d1 := if s ≤ 10 then 1 else -1
          d2 := -1
          d3 := ((s / 10 : Nat) : Int)
          d4 := ((s % 10 : Nat) : Int)
          dot := if now % 1000 < 500 then 3 else 4
          r := if s > 6 then 100 else 255
          g := if s > 3 then 255 else 100
          b := 0 } := by
  have h2 : toU32 (if -(s : Int) < 0 then 60 + -(s : Int) else -(s : Int) - 0) = 60 - s := by
    rw [if_pos (by omega)]
    unfold toU32
    omega
  have h3 : toU32 (if (60 : Int) < 30 then 12 else 22) = 22 := by decide
  have h4 : toU32 (60 : Int) = 60 := by decide
  have h5 : u32sub 60 ((60 - s) % 60) % 256 = s := by
    unfold u32sub
    omega
  unfold countdownFrame
  simp only [h2, h3, h4, h5, gt_iff_lt]
  rw [if_neg (by omega)]
  split_ifs <;> (try simp_all) <;> omega

/-- C13: in an active round of duration `d` (21..60) with `t < d` seconds spent in it, the
published frame is as follows. Prep sub-phase, exactly when `t < 22` (`t < 12` when
`d < 30`): the first digit is the group tag 1 for `t < 2`, 2 for `2 <= t < 12`, 3 for
`t >= 12`; with the sub-phase remaining value `10 - t mod 10`, the digits show it when it is
at most 8, and above 8 the colour is red and the digits show 0 in round 0 and `d + 1`
otherwise. Main phase otherwise: the remaining value is `d - t`, the digits show it, and the
first digit is 1 when it is at most 10 and blank otherwise. The second digit is always
blank. At adjusted elapsed 0 the search gives round 0 (`d = 60`) and the frame is the prep
frame with group 1. -/
theorem countdown_phase_layout (now T d t : Nat) (_hd0 : 21 ≤ d) (hd : d ≤ 60) (ht : t < d) :
    (t < (if d < 30 then 12 else 22) →
      (countdownFrame now ((T : Int) + (t : Int)) (T : Int) (d : Int)).d1
          = (if t < 2 then 1 else if t < 12 then 2 else 3) ∧
        (countdownFrame now ((T : Int) + (t : Int)) (T : Int) (d : Int)).d2 = -1 ∧
        (¬ 8 < 10 - t % 10 →
          (countdownFrame now ((T : Int) + (t : Int)) (T : Int) (d : Int)).d3
              = (((10 - t % 10) / 10 : Nat) : Int) ∧
            (countdownFrame now ((T : Int) + (t : Int)) (T : Int) (d : Int)).d4
              = (((10 - t % 10) % 10 : Nat) : Int)) ∧
        (8 < 10 - t % 10 →
          (countdownFrame now ((T : Int) + (t : Int)) (T : Int) (d : Int)).r = 255 ∧
            (countdownFrame now ((T : Int) + (t : Int)) (T : Int) (d : Int)).d3
              = (((if d = 60 then 0 else d + 1) / 10 : Nat) : Int) ∧
            (countdownFrame now ((T : Int) + (t : Int)) (T : Int) (d : Int)).d4
              = (((if d = 60 then 0 else d + 1) % 10 : Nat) : Int))) ∧
      (¬ t < (if d < 30 then 12 else 22) →
        (countdownFrame now ((T : Int) + (t : Int)) (T : Int) (d : Int)).d1
            = (if d - t ≤ 10 then 1 else -1) ∧
          (countdownFrame now ((T : Int) + (t : Int)) (T : Int) (d : Int)).d2 = -1 ∧
          (countdownFrame now ((T : Int) + (t : Int)) (T : Int) (d : Int)).d3
            = (((d - t) / 10 : Nat) : Int) ∧
          (countdownFrame now ((T : Int) + (t : Int)) (T : Int) (d : Int)).d4
            = (((d - t) % 10 : Nat) : Int)) ∧
      (∀ fuel : Nat, roundSearch (fuel + 1) 0 0 60 = some (0, 60)) ∧
      countdownFrame now 0 0 60
        = { d1 := 1, d2 := -1, d3 := 0, d4 := 0, dot := if now % 1000 < 500 then 3 else 4
            r := 255, g := 0, b := 0 } := by
  refine ⟨?_, ?_, ?_, ?_⟩
  · intro hp
    by_cases hr : 8 < 10 - t % 10
    · rw [countdownFrame_prep_red now T d t hd ht hp hr]
      exact ⟨rfl, rfl, fun h => absurd hr h, fun _ => ⟨rfl, rfl, rfl⟩⟩
    · rw [countdownFrame_prep_low now T d t hd ht hp hr]
      exact ⟨rfl, rfl, fun _ => ⟨rfl, rfl⟩, fun h => absurd h hr⟩
  · intro hp
    rw [countdownFrame_main now T d t hd ht hp]
    exact ⟨rfl, rfl, rfl, rfl⟩
  · intro fuel
    rw [roundSearch, wrapI32_of_bounds _ (by omega) (by omega)]
    simp
  · have := countdownFrame_prep_red now 0 60 0 (by omega) (by omega) (by decide) (by decide)
    simpa using this

theorem countdown_phase_layout_witness :
    (countdownFrame 65000 ((60 : Nat) + (5 : Nat)) (60 : Nat) (59 : Nat)).d1 = 2 ∧
      (countdownFrame 65000 ((60 : Nat) + (5 : Nat)) (60 : Nat) (59 : Nat)).d2 = -1 :=
  ⟨((countdown_phase_layout 65000 60 59 5 (by decide) (by decide) (by decide)).1
      (by decide)).1,
    ((countdown_phase_layout 65000 60 59 5 (by decide) (by decide) (by decide)).1
      (by decide)).2.1⟩

/-- C14 as stated fails in the main phase: 22 s into round 0 (the pass at 52100 ms from
`countdownRunning`, epoch 100 ms) the remaining value is 38, above 8, and the published
colour is `(100,255,0)`, not the pure red of the stated policy. -/
theorem main_phase_colour_not_red :
    roundSearch 1 (countdownElapsedSec 52100 100) 0 60 = some (0, 60) ∧
      (loop 1 countdownRunning (tickAt 52100 true false false true)).map
          (fun s => s.mesh.getLast?)
        = some (some "-1,-1,3,8,3,100,255,0".toList) ∧
      colourTierSpec 38 = (255, 0, 0) ∧
      ((countdownFrame 52100 22 0 60).r, (countdownFrame 52100 22 0 60).g,
          (countdownFrame 52100 22 0 60).b) ≠ colourTierSpec 38 := by
  decide

/-- C14 (amended): in an active round of duration `d` (21..60) with `t < d` seconds spent
in it, the published colour in the prep sub-phase follows the stated policy on the
sub-phase remaining value `10 - t mod 10` (above 8 pure red, else above 6 `(100,255,0)`,
else above 3 `(255,255,0)`, else `(255,100,0)`); in the main phase, and during the
pre-roll, there is no red tier: a remaining value above 6 gives `(100,255,0)`, else above 3
`(255,255,0)`, else `(255,100,0)`. -/
theorem countdown_colour_policy (now T d t : Nat) (_hd0 : 21 ≤ d) (hd : d ≤ 60) (ht : t < d) :
    (t < (if d < 30 then 12 else 22) →
      ((countdownFrame now ((T : Int) + (t : Int)) (T : Int) (d : Int)).r,
        (countdownFrame now ((T : Int) + (t : Int)) (T : Int) (d : Int)).g,
        (countdownFrame now ((T : Int) + (t : Int)) (T : Int) (d : Int)).b)
        = colourTierSpec (10 - t % 10)) ∧
      (¬ t < (if d < 30 then 12 else 22) →
        ((countdownFrame now ((T : Int) + (t : Int)) (T : Int) (d : Int)).r,
          (countdownFrame now ((T : Int) + (t : Int)) (T : Int) (d : Int)).g,
          (countdownFrame now ((T : Int) + (t : Int)) (T : Int) (d : Int)).b)
          = (if d - t > 6 then (100, 255, 0)
             else if d - t > 3 then (255, 255, 0) else (255, 100, 0))) ∧
      (∀ s : Nat, 1 ≤ s → s ≤ 30 →
        ((countdownFrame now (-(s : Int)) 0 60).r, (countdownFrame now (-(s : Int)) 0 60).g,
          (countdownFrame now (-(s : Int)) 0 60).b)
          = (if s > 6 then (100, 255, 0)
             else if s > 3 then (255, 255, 0) else (255, 100, 0))) := by
  refine ⟨?_, ?_, ?_⟩
  · intro hp
    by_cases hr : 8 < 10 - t % 10
    · rw [countdownFrame_prep_red now T d t hd ht hp hr]
      simp [colourTierSpec, hr]
    · rw [countdownFrame_prep_low now T d t hd ht hp hr]
      simp only [colourTierSpec, gt_iff_lt, hr, if_false]
      split_ifs <;> first | rfl | omega
  · intro hp
    rw [countdownFrame_main now T d t hd ht hp]
    simp only [gt_iff_lt]
    split_ifs <;> first | rfl | omega
  · intro s h0 h1
    rw [countdownFrame_preroll now s h0 h1]
    simp only [gt_iff_lt]
    split_ifs <;> first | rfl | omega

theorem countdown_colour_policy_witness :
    ((countdownFrame 52100 ((0 : Nat) + (22 : Nat)) (0 : Nat) (60 : Nat)).r,
      (countdownFrame 52100 ((0 : Nat) + (22 : Nat)) (0 : Nat) (60 : Nat)).g,
      (countdownFrame 52100 ((0 : Nat) + (22 : Nat)) (0 : Nat) (60 : Nat)).b)
      = (if 60 - 22 > 6 then (100, 255, 0)
         else if 60 - 22 > 3 then (255, 255, 0) else (255, 100, 0)) :=
  (countdown_colour_policy 52100 0 60 22 (by decide) (by decide) (by decide)).2.1 (by decide)

/-- C15 as stated fails: at adjusted elapsed 60 s (the pass at 90100 ms from
`countdownRunning`, epoch 100 ms) the engine is at the start of round 1, duration 59, in
the red tier of the prep sub-phase, and the digits show 60, the duration plus 1, not 58. -/
theorem prep_red_shows_duration_plus_one :
    roundSearch 2 (countdownElapsedSec 90100 100) 0 60 = some (60, 59) ∧
      (loop 2 countdownRunning (tickAt 90100 true false false true)).map
          (fun s => s.mesh.getLast?)
        = some (some "1,-1,6,0,3,255,0,0".toList) ∧
      (countdownFrame 90100 60 60 59).d3 = 6 ∧ (countdownFrame 90100 60 60 59).d4 = 0 := by
  decide

/-- C15 (amended): in the prep sub-phase of a round of duration `d` (21..60), while the
sub-phase remaining value `10 - t mod 10` is above 8 (the pure-red tier), the seconds digits
show the current round's duration plus 1 (the duration of the round before), except in the
first round (duration 60) where they show 0. -/
theorem prep_red_value_shown (now T d t : Nat) (_hd0 : 21 ≤ d) (hd : d ≤ 60) (ht : t < d)
    (hp : t < (if d < 30 then 12 else 22)) (hr : 8 < 10 - t % 10) :
    (countdownFrame now ((T : Int) + (t : Int)) (T : Int) (d : Int)).d3
        = (((if d = 60 then 0 else d + 1) / 10 : Nat) : Int) ∧
      (countdownFrame now ((T : Int) + (t : Int)) (T : Int) (d : Int)).d4
        = (((if d = 60 then 0 else d + 1) % 10 : Nat) : Int) ∧
      ((countdownFrame now ((T : Int) + (t : Int)) (T : Int) (d : Int)).r,
        (countdownFrame now ((T : Int) + (t : Int)) (T : Int) (d : Int)).g,
        (countdownFrame now ((T : Int) + (t : Int)) (T : Int) (d : Int)).b) = (255, 0, 0) := by
  rw [countdownFrame_prep_red now T d t hd ht hp hr]
  exact ⟨rfl, rfl, rfl⟩

theorem prep_red_value_shown_witness :
    (countdownFrame 90100 ((60 : Nat) + (0 : Nat)) (60 : Nat) (59 : Nat)).d3
        = (((if 59 = 60 then 0 else 59 + 1) / 10 : Nat) : Int) ∧
      (countdownFrame 90100 ((60 : Nat) + (0 : Nat)) (60 : Nat) (59 : Nat)).d4
        = (((if 59 = 60 then 0 else 59 + 1) % 10 : Nat) : Int) :=
  ⟨(prep_red_value_shown 90100 60 59 0 (by decide) (by decide) (by decide) (by decide)
      (by decide)).1,
    (prep_red_value_shown 90100 60 59 0 (by decide) (by decide) (by decide) (by decide)
      (by decide)).2.1⟩

/-! ## Colour wheel -/

/-- C16: for every wheel position `p` in 0..254, each of the three channels of
`calculateRainbowColor p` and `calculateRainbowColor (p + 1)` differs by at most 3; in
particular across the band boundaries 84/85 and 169/170. -/
theorem rainbow_step_at_most_3 (p : Nat) (hp : p < 255) :
    ((calculateRainbowColor (p + 1)).1 - (calculateRainbowColor p).1).natAbs ≤ 3 ∧
      ((calculateRainbowColor (p + 1)).2.1 - (calculateRainbowColor p).2.1).natAbs ≤ 3 ∧
      ((calculateRainbowColor (p + 1)).2.2 - (calculateRainbowColor p).2.2).natAbs ≤ 3 := by
  unfold calculateRainbowColor toU8
  split_ifs <;> simp only [] <;> omega

theorem rainbow_step_at_most_3_witness :
    ((calculateRainbowColor (84 + 1)).1 - (calculateRainbowColor 84).1).natAbs ≤ 3 ∧
      ((calculateRainbowColor (84 + 1)).2.1 - (calculateRainbowColor 84).2.1).natAbs ≤ 3 ∧
      ((calculateRainbowColor (84 + 1)).2.2 - (calculateRainbowColor 84).2.2).natAbs ≤ 3 :=
  rainbow_step_at_most_3 84 (by decide)

/-- C17 fails on the code: positions 0 and 255 give the same triple, but it is pure green
`(0,255,0)`, not pure red. The bands run green to red over 0..84, red to blue over
85..169 and blue to green over 170..255 (slope 3 per position), where the function's own
comment says red to green, green to blue, blue to red. -/
theorem rainbow_starts_on_green :
    calculateRainbowColor 0 = (0, 255, 0) ∧ calculateRainbowColor 255 = (0, 255, 0) ∧
      calculateRainbowColor 84 = (252, 3, 0) ∧ calculateRainbowColor 85 = (255, 0, 0) ∧
      calculateRainbowColor 169 = (3, 0, 252) ∧ calculateRainbowColor 170 = (0, 0, 255) ∧
      (∀ p : Nat, p < 85 → calculateRainbowColor p = (3 * (p : Int), 255 - 3 * (p : Int), 0)) ∧
      (∀ p : Nat, p < 85 →
        calculateRainbowColor (85 + p) = (255 - 3 * (p : Int), 0, 3 * (p : Int))) ∧
      (∀ p : Nat, p < 86 →
        calculateRainbowColor (170 + p) = (0, 3 * (p : Int), 255 - 3 * (p : Int))) := by
  refine ⟨by decide, by decide, by decide, by decide, by decide, by decide, ?_, ?_, ?_⟩
  · intro p hp
    unfold calculateRainbowColor
    rw [if_pos hp]
    simp only [Prod.mk.injEq]
    refine ⟨?_, ?_, ?_⟩ <;> first | omega | trivial
  · intro p hp
    unfold calculateRainbowColor toU8
    rw [if_neg (by omega), if_pos (by omega)]
    simp only [Prod.mk.injEq]
    refine ⟨?_, ?_, ?_⟩ <;> first | omega | trivial
  · intro p hp
    unfold calculateRainbowColor toU8
    rw [if_neg (by omega), if_neg (by omega)]
    simp only [Prod.mk.injEq]
    refine ⟨?_, ?_, ?_⟩ <;> first | omega | trivial

/-! ## Render states produced by the handlers -/

theorem publishes_refl (c : ClockStateMachine) : Publishes c c :=
  ⟨[], by simp, by simp, by intro x hx; cases hx⟩

theorem publishes_of_eq (c s s1 : ClockStateMachine) (hd : s1.display = s.display)
    (hm : s1.mesh = s.mesh) (h : Publishes c s) : Publishes c s1 := by
  obtain ⟨pushed, h1, h2, h3⟩ := h
  exact ⟨pushed, by rw [hd, h1], by rw [hm, h2], h3⟩

theorem publishes_push (c c0 : ClockStateMachine) (x : RenderState) (hx : x.valid)
    (hd : c0.display = c.display) (hm : c0.mesh = c.mesh) :
    Publishes c (pushTimeToMesh c0 x.d1 x.d2 x.d3 x.d4 x.dot x.r x.g x.b) := by
  refine ⟨[x], ?_, ?_, ?_⟩
  · rw [pushTimeToMesh_eq, decode_encode_valid x hx]
    simp [hd]
  · rw [pushTimeToMesh_eq]
    simp [hm]
  · intro y hy
    rw [List.mem_singleton.1 hy]
    exact hx

theorem hidden_valid : hidden.valid := by decide

theorem updateTimeFromMillis_eq_wrap (csm : ClockStateMachine) (now : Nat) (r g b : Int) :
    updateTimeFromMillis csm now r g b
      = pushTimeToMesh csm
          (elapsedFormatSpec (u32sub now csm.startTime) r g b).d1
          (elapsedFormatSpec (u32sub now csm.startTime) r g b).d2
          (elapsedFormatSpec (u32sub now csm.startTime) r g b).d3
          (elapsedFormatSpec (u32sub now csm.startTime) r g b).d4
          (elapsedFormatSpec (u32sub now csm.startTime) r g b).dot
          (elapsedFormatSpec (u32sub now csm.startTime) r g b).r
          (elapsedFormatSpec (u32sub now csm.startTime) r g b).g
          (elapsedFormatSpec (u32sub now csm.startTime) r g b).b := by
  unfold updateTimeFromMillis elapsedFormatSpec
  generalize u32sub now csm.startTime = e
  have hs : (e / 1000) % 3600 < 3600 := Nat.mod_lt _ (by decide)
  have hm256 : (e / 1000) % 3600 / 60 % 256 = (e / 1000) % 3600 / 60 :=
    Nat.mod_eq_of_lt (by omega)
  have hsec : (e / 1000) % 3600 % 60 % 256 = (e / 1000) % 3600 % 60 :=
    Nat.mod_eq_of_lt (by omega)
  have hd4 : (e / 1000) % 3600 % 60 % 10 = (e / 1000) % 3600 % 10 := by omega
  have hcol : (e / 1000 ≥ 14400) ↔ (e ≥ 14400000) := by
    constructor <;> intro h <;> omega
  have hd1 : ((e / 1000) % 3600 / 60 / 10 = 0) ↔ ((e / 1000) % 3600 / 60 < 10) := by
    constructor <;> intro h <;> omega
  simp only [hm256, hsec, hd4, hd1, hcol]
  split_ifs <;> rfl

theorem rainbow_channels (pos : Nat) (hp : pos < 256) :
    channelOk (calculateRainbowColor pos).1 ∧ channelOk (calculateRainbowColor pos).2.1 ∧
      channelOk (calculateRainbowColor pos).2.2 := by
  unfold calculateRainbowColor toU8 channelOk
  split_ifs <;> simp only [] <;> omega

theorem updateTimeFromMillis_publishes (c c0 : ClockStateMachine) (now : Nat) (r g b : Int)
    (hr : channelOk r) (hg : channelOk g) (hb : channelOk b)
    (hd : c0.display = c.display) (hm : c0.mesh = c.mesh) :
    Publishes c (updateTimeFromMillis c0 now r g b) := by
  rw [updateTimeFromMillis_eq_wrap]
  exact publishes_push c c0 _ (elapsedFormatSpec_valid _ r g b hr hg hb) hd hm

theorem stateSleep_publishes (c : ClockStateMachine) (i : TickIn) :
    Publishes c (stateSleep c i) := by
  have hP : Publishes c (pushTimeToMesh c (-1) (-1) (-1) (-1) 1 0 0 0) :=
    publishes_push c c hidden hidden_valid rfl rfl
  unfold stateSleep
  simp only [resetTime]
  split_ifs
  all_goals first
    | exact publishes_of_eq c _ _ rfl rfl hP
    | exact publishes_of_eq c _ _ rfl rfl (publishes_refl c)

theorem stateManualRed_publishes (c : ClockStateMachine) (i : TickIn) :
    Publishes c (stateManualRed c i) := by
  have hP := updateTimeFromMillis_publishes c
    { c with lastUpdateRed := (shouldUpdate c.lastUpdateRed refreshInterval i.tThrottle).2 }
    i.tRender 255 0 0 (by decide) (by decide) (by decide) rfl rfl
  unfold stateManualRed
  simp only [resetTime]
  split_ifs
  all_goals first
    | exact publishes_of_eq c _ _ rfl rfl hP
    | exact publishes_of_eq c _ _ rfl rfl (publishes_refl c)

theorem stateManualRainbow_publishes (c : ClockStateMachine) (i : TickIn) :
    Publishes c (stateManualRainbow c i) := by
  have hw : wheelPos ((i.tWheel % 4294967296) / 1000) < 256 := Nat.mod_lt _ (by decide)
  obtain ⟨h1, h2, h3⟩ := rainbow_channels _ hw
  have hP := updateTimeFromMillis_publishes c
    { c with lastUpdateRainbow :=
        (shouldUpdate c.lastUpdateRainbow refreshInterval i.tThrottle).2 }
    i.tRender _ _ _ h1 h2 h3 rfl rfl
  unfold stateManualRainbow
  simp only [resetTime]
  split_ifs
  all_goals first
    | exact publishes_of_eq c _ _ rfl rfl hP
    | exact publishes_of_eq c _ _ rfl rfl (publishes_refl c)

/-- Whatever the fuel, a result of the round search with a duration above 20 is either the
pre-roll of round 0 or a round `j <= 39` with a time `t` spent in it. -/
theorem roundSearch_sound (e : Int) (hlo : -30 ≤ e) (hmax : e < 2147483520) (fuel : Nat)
    (T d : Int)
    (h : roundSearch fuel e 0 60 = some (T, d)) (hd : 20 < d) :
    (∃ s : Nat, 1 ≤ s ∧ s ≤ 30 ∧ e = -(s : Int) ∧ T = 0 ∧ d = 60) ∨
      (∃ Tn dn t : Nat, 21 ≤ dn ∧ dn ≤ 60 ∧ t < dn ∧ T = (Tn : Int) ∧ d = (dn : Int) ∧
        e = (Tn : Int) + (t : Int)) := by
  by_cases hneg : e < 0
  · left
    cases fuel with
    | zero => cases h
    | succ n =>
      rw [roundSearch_preroll e hneg n] at h
      cases h
      exact ⟨(-e).toNat, by omega, by omega, by omega, rfl, rfl⟩
  · right
    have h1830 : e < 1830 := by
      by_contra hc
      have := roundSearch_late_sound e (by omega) hmax fuel 0 60 (by omega) (by omega)
        (by omega) (by norm_num) T d h
      omega
    obtain ⟨j, hj, hjlo, hjhi⟩ := exists_round e (by omega) h1830
    have hr := roundSearch_round e j hj hjlo hjhi fuel 0 (Nat.zero_le _)
    rw [roundStart_zero] at hr
    simp only [Nat.cast_zero, sub_zero] at hr
    rw [hr] at h
    split at h
    · cases h
      have hb := roundStart_bounds j (by omega)
      rw [roundStart_succ] at hjhi
      refine ⟨(roundStart j).toNat, 60 - j, (e - roundStart j).toNat, ?_, ?_, ?_, ?_, ?_, ?_⟩
        <;> omega
    · cases h

theorem countdownFrame_valid_round (now T d t : Nat) (hd : d ≤ 60) (ht : t < d) :
    (countdownFrame now ((T : Int) + (t : Int)) (T : Int) (d : Int)).valid := by
  by_cases hp : t < (if d < 30 then 12 else 22)
  · by_cases hr : 8 < 10 - t % 10
    · rw [countdownFrame_prep_red now T d t hd ht hp hr]
      simp only [RenderState.valid, digitOk, channelOk]
      refine ⟨?_, ?_, ?_, ?_, ?_, ?_, ?_, ?_⟩ <;> (try split_ifs) <;> omega
    · rw [countdownFrame_prep_low now T d t hd ht hp hr]
      simp only [RenderState.valid, digitOk, channelOk]
      refine ⟨?_, ?_, ?_, ?_, ?_, ?_, ?_, ?_⟩ <;> (try split_ifs) <;> omega
  · rw [countdownFrame_main now T d t hd ht hp]
    simp only [RenderState.valid, digitOk, channelOk]
    refine ⟨?_, ?_, ?_, ?_, ?_, ?_, ?_, ?_⟩ <;> (try split_ifs) <;> omega

theorem countdownFrame_valid_preroll (now s : Nat) (h0 : 1 ≤ s) (h1 : s ≤ 30) :
    (countdownFrame now (-(s : Int)) 0 60).valid := by
  rw [countdownFrame_preroll now s h0 h1]
  simp only [RenderState.valid, digitOk, channelOk]
  refine ⟨?_, ?_, ?_, ?_, ?_, ?_, ?_, ?_⟩ <;> (try split_ifs) <;> omega

theorem countdownFrame_valid (now startTime fuel : Nat) (T d : Int)
    (h : roundSearch fuel (countdownElapsedSec now startTime) 0 60 = some (T, d))
    (hd : 20 < d) :
    (countdownFrame now (countdownElapsedSec now startTime) T d).valid := by
  have hb := countdownElapsedSec_bounds now startTime
  rcases roundSearch_sound _ hb.1 (by omega) fuel T d h hd with
    ⟨s, hs0, hs1, he, hT, hd60⟩ | ⟨Tn, dn, t, h21, h60, ht, hT, hdn, he⟩
  · rw [he, hT, hd60]
    exact countdownFrame_valid_preroll now s hs0 hs1
  · rw [he, hT, hdn]
    exact countdownFrame_valid_round now Tn dn t h60 ht

theorem countdown50Transitions_display (s : ClockStateMachine) (i : TickIn) :
    (countdown50Transitions s i).display = s.display ∧
      (countdown50Transitions s i).mesh = s.mesh := by
  unfold countdown50Transitions
  simp only [resetTime]
  split_ifs <;> exact ⟨rfl, rfl⟩

theorem stateCountdown50_publishes (fuel : Nat) (c s : ClockStateMachine) (i : TickIn)
    (hs : stateCountdown50 fuel c i = some s) : Publishes c s := by
  unfold stateCountdown50 at hs
  simp only at hs
  split at hs
  · split at hs
    · cases hs
    · next T d hsearch =>
      split at hs
      · cases hs
        exact publishes_push c _ hidden hidden_valid rfl rfl
      · next hd =>
        cases hs
        have hv := countdownFrame_valid (i.tRender % 4294967296) c.startTime fuel T d
          hsearch (by omega)
        have hP := publishes_push c
          { c with lastUpdateCountdown :=
              (shouldUpdate c.lastUpdateCountdown refreshInterval i.tThrottle).2 }
          _ hv rfl rfl
        exact publishes_of_eq c _ _ (countdown50Transitions_display _ i).1
          (countdown50Transitions_display _ i).2 hP
  · cases hs
    exact publishes_of_eq c _ _ (countdown50Transitions_display _ i).1
      (countdown50Transitions_display _ i).2 (publishes_refl c)

theorem loop_publishes (fuel : Nat) (c s : ClockStateMachine) (i : TickIn)
    (hs : loop fuel c i = some s) : Publishes c s := by
  unfold loop at hs
  simp only [updateButtons_stateHandler] at hs
  cases hm : c.stateHandler with
  | none =>
    rw [hm] at hs
    cases hs
    exact publishes_of_eq c c _ rfl rfl (publishes_refl c)
  | some m =>
    rw [hm] at hs
    cases m with
    | Sleep =>
      cases hs
      exact stateSleep_publishes (updateButtons c i) i
    | ManualRainbow =>
      cases hs
      exact stateManualRainbow_publishes (updateButtons c i) i
    | ManualRed =>
      cases hs
      exact stateManualRed_publishes (updateButtons c i) i
    | Countdown50 =>
      exact stateCountdown50_publishes fuel (updateButtons c i) s i hs

theorem updateDigit_isSome (sd : SegmentDisplay) (position : Nat) (value : Int)
    (h : digitOk value) : (sd.updateDigit position value).isSome = true := by
  unfold digitOk at h
  unfold SegmentDisplay.updateDigit
  simp only [toI8_of_bounds value (by omega) (by omega)]
  split_ifs
  · rfl
  · rfl
  · exfalso; omega

theorem setTime_isSome (sd : SegmentDisplay) (x : RenderState) (hx : x.valid) :
    (sd.setTime x.d1 x.d2 x.d3 x.d4 x.dot x.r x.g x.b).isSome = true := by
  obtain ⟨h1, h2, h3, h4, -⟩ := hx
  unfold SegmentDisplay.setTime
  simp only
  obtain ⟨s1, e1⟩ := Option.isSome_iff_exists.1 (updateDigit_isSome
    { sd with curr_r := x.r, curr_g := x.g, curr_b := x.b } 0 x.d1 h1)
  rw [e1]
  obtain ⟨s2, e2⟩ := Option.isSome_iff_exists.1 (updateDigit_isSome s1 1 x.d2 h2)
  obtain ⟨s3, e3⟩ := Option.isSome_iff_exists.1 (updateDigit_isSome s2 2 x.d3 h3)
  obtain ⟨s4, e4⟩ := Option.isSome_iff_exists.1 (updateDigit_isSome s3 3 x.d4 h4)
  simp [e2, e3, e4]

/-- C18: on every pass of `loop()` that returns, whatever the epoch, the clock readings and
the switch readings, the render states the pass hands to `pushTimeToMesh` (they are what
the display log and, encoded, the mesh log gain) all have digits in -1..9, dot mode in 1..5
and colour channels in 0..255, so `setTime` applied to them never reads outside the digit
pattern table. The colour of `calculateRainbowColor` is in range for every 8-bit wheel
position, and so is the frame of the countdown engine for every result of its round search
with a duration above 20. -/
theorem produced_states_in_range (fuel : Nat) (csm s : ClockStateMachine) (i : TickIn)
    (hs : loop fuel csm i = some s) :
    (∃ pushed : List RenderState,
        s.display = csm.display ++ pushed ∧
        s.mesh = csm.mesh
          ++ pushed.map (fun x => encodeDisplayData x.d1 x.d2 x.d3 x.d4 x.dot x.r x.g x.b) ∧
        ∀ x ∈ pushed, x.valid ∧
          ∀ sd : SegmentDisplay,
            (sd.setTime x.d1 x.d2 x.d3 x.d4 x.dot x.r x.g x.b).isSome = true) ∧
      hidden.valid ∧
      (∀ pos : Nat, pos < 256 →
        channelOk (calculateRainbowColor pos).1 ∧ channelOk (calculateRainbowColor pos).2.1 ∧
          channelOk (calculateRainbowColor pos).2.2) ∧
      (∀ (e : Nat) (r g b : Int), channelOk r → channelOk g → channelOk b →
        (elapsedFormatSpec e r g b).valid) ∧
      (∀ (now startTime fuel1 : Nat) (T d : Int),
        roundSearch fuel1 (countdownElapsedSec now startTime) 0 60 = some (T, d) → 20 < d →
          (countdownFrame now (countdownElapsedSec now startTime) T d).valid) := by
  refine ⟨?_, hidden_valid, rainbow_channels, elapsedFormatSpec_valid, countdownFrame_valid⟩
  obtain ⟨pushed, h1, h2, h3⟩ := loop_publishes fuel csm s i hs
  exact ⟨pushed, h1, h2, fun x hx => ⟨h3 x hx, fun sd => setTime_isSome sd x (h3 x hx)⟩⟩

theorem produced_states_in_range_witness :
    ∃ pushed : List RenderState,
      (stateSleep (updateButtons (start 0) (tickAt 0 true false false true))
          (tickAt 0 true false false true)).display = (start 0).display ++ pushed ∧
        ∀ x ∈ pushed, x.valid :=
  match (produced_states_in_range 0 (start 0)
      (stateSleep (updateButtons (start 0) (tickAt 0 true false false true))
        (tickAt 0 true false false true))
      (tickAt 0 true false false true) rfl).1 with
  | ⟨pushed, h1, _, h3⟩ => ⟨pushed, h1, fun x hx => (h3 x hx).1⟩

/-! ## Dot modes outside 1..5 -/

theorem updateDots_skip (sd : SegmentDisplay) (mode : Int)
    (h : toU8 mode < 1 ∨ 5 < toU8 mode) : sd.updateDots mode = sd := by
  unfold SegmentDisplay.updateDots
  simp only [gt_iff_lt]
  rw [if_pos h]

set_option maxRecDepth 100000 in
theorem setTime_dots_all_on :
    (SegmentDisplay.cleared.setTime 1 2 3 4 5 255 0 0).map (fun s => s.dots)
      = some [16711680, 16711680, 16711680, 16711680, 16711680, 16711680, 16711680,
          16711680] := by
  decide

set_option maxRecDepth 100000 in
theorem setTime_dots_mode_257 :
    ((SegmentDisplay.cleared.setTime 1 2 3 4 5 255 0 0).bind
        (fun s => s.setTime 1 2 3 4 257 0 255 0)).map (fun s => s.dots)
      = some [65280, 65280, 0, 0, 0, 0, 0, 0] := by
  decide

set_option maxRecDepth 100000 in
theorem setTime_dots_mode_6 :
    ((SegmentDisplay.cleared.setTime 1 2 3 4 5 255 0 0).bind
        (fun s => s.setTime 1 2 3 4 6 0 255 0)).map (fun s => s.dots)
      = some [16711680, 16711680, 16711680, 16711680, 16711680, 16711680, 16711680,
          16711680] := by
  decide

/-- C19 fails on the code for dot modes that are 1..5 modulo 256. The peer message
`1,2,3,4,257,0,255,0` decodes with dot mode 257; `updateDots` takes a `uint8_t`, so it
receives 1 and applies the pattern of mode 1: with all eight dot LEDs lit red before the
call, they end as two green LEDs and six dark ones. With dot mode 6 the update is skipped
and the dots keep their colour; it is skipped whenever the 8-bit value is outside 1..5. -/
theorem dot_mode_257_applies_pattern :
    decodeDisplayData "1,2,3,4,257,0,255,0".toList
        = some (RenderState.mk 1 2 3 4 257 0 255 0) ∧
      (SegmentDisplay.cleared.setTime 1 2 3 4 5 255 0 0).map (fun s => s.dots)
        = some [16711680, 16711680, 16711680, 16711680, 16711680, 16711680, 16711680,
            16711680] ∧
      ((SegmentDisplay.cleared.setTime 1 2 3 4 5 255 0 0).bind
          (fun s => s.setTime 1 2 3 4 257 0 255 0)).map (fun s => s.dots)
        = some [65280, 65280, 0, 0, 0, 0, 0, 0] ∧
      ((SegmentDisplay.cleared.setTime 1 2 3 4 5 255 0 0).bind
          (fun s => s.setTime 1 2 3 4 6 0 255 0)).map (fun s => s.dots)
        = some [16711680, 16711680, 16711680, 16711680, 16711680, 16711680, 16711680,
            16711680] ∧
      (∀ (sd : SegmentDisplay) (mode : Int), toU8 mode < 1 ∨ 5 < toU8 mode →
        sd.updateDots mode = sd) := by
  exact ⟨by decide, setTime_dots_all_on, setTime_dots_mode_257, setTime_dots_mode_6,
    updateDots_skip⟩

/-! ## Several select switches held -/

theorem stateSleep_mode (c : ClockStateMachine) (i : TickIn)
    (hp : c.powerSwitch.isOn = true) :
    (stateSleep c i).stateHandler
      = some (if c.manualRedSwitch.isOn then Mode.ManualRed
              else if c.countdown50Switch.isOn then Mode.Countdown50
              else Mode.ManualRainbow) := by
  unfold stateSleep
  simp only [pushTimeToMesh_eq, resetTime]
  split_ifs <;> simp_all

theorem stateManualRainbow_mode (c : ClockStateMachine) (i : TickIn)
    (hp : c.powerSwitch.isOn = true) :
    (stateManualRainbow c i).stateHandler
      = if c.manualRedSwitch.isOn then some Mode.ManualRed
        else if c.countdown50Switch.isOn then some Mode.Countdown50
        else c.stateHandler := by
  unfold stateManualRainbow updateTimeFromMillis
  simp only [pushTimeToMesh_eq, resetTime]
  split_ifs <;> simp_all

theorem stateManualRed_mode (c : ClockStateMachine) (i : TickIn)
    (hp : c.powerSwitch.isOn = true) :
    (stateManualRed c i).stateHandler
      = if c.manualRainbowSwitch.isOn then some Mode.ManualRainbow
        else if c.countdown50Switch.isOn then some Mode.Countdown50
        else c.stateHandler := by
  unfold stateManualRed updateTimeFromMillis
  simp only [pushTimeToMesh_eq, resetTime]
  split_ifs <;> simp_all

theorem countdown50Transitions_mode (c : ClockStateMachine) (i : TickIn)
    (hp : c.powerSwitch.isOn = true) :
    (countdown50Transitions c i).stateHandler
      = if c.manualRainbowSwitch.isOn then some Mode.ManualRainbow
        else if c.manualRedSwitch.isOn then some Mode.ManualRed
        else c.stateHandler := by
  unfold countdown50Transitions
  simp only [resetTime]
  split_ifs <;> simp_all

theorem stateCountdown50_mode (fuel : Nat) (c : ClockStateMachine) (i : TickIn)
    (hp : c.powerSwitch.isOn = true) (hr : reachesTransitions fuel c i) :
    ∃ s, stateCountdown50 fuel c i = some s ∧
      s.stateHandler
        = if c.manualRainbowSwitch.isOn then some Mode.ManualRainbow
          else if c.manualRedSwitch.isOn then some Mode.ManualRed
          else c.stateHandler := by
  unfold stateCountdown50
  simp only
  by_cases hfire : (shouldUpdate c.lastUpdateCountdown refreshInterval i.tThrottle).1 = true
  · rcases hr with hno | ⟨T, d, hsearch, hd⟩
    · rw [hfire] at hno; cases hno
    · simp only [hfire, if_true, hsearch]
      rw [if_neg (by omega)]
      refine ⟨_, rfl, ?_⟩
      rw [countdown50Transitions_mode _ i (by simpa [pushTimeToMesh_eq] using hp)]
      simp [pushTimeToMesh_eq]
  · simp only [hfire, Bool.false_eq_true, if_false]
    exact ⟨_, rfl, countdown50Transitions_mode _ i hp⟩

theorem loop_timed (fuel : Nat) (c : ClockStateMachine) (i : TickIn) :
    (c.stateHandler = some Mode.ManualRainbow →
        loop fuel c i = some (stateManualRainbow (updateButtons c i) i)) ∧
      (c.stateHandler = some Mode.ManualRed →
        loop fuel c i = some (stateManualRed (updateButtons c i) i)) := by
  constructor
  · intro h
    have hm : (updateButtons c i).stateHandler = some Mode.ManualRainbow := h
    simp only [loop, hm]
  · intro h
    have hm : (updateButtons c i).stateHandler = some Mode.ManualRed := h
    simp only [loop, hm]

/-- C20 as stated fails: with power, red-select and countdown-select held on, the run
`heldRedCountdownRun` is in ManualRed after its second pass (epoch 100 ms), in Countdown50
after the third (epoch 200 ms), in ManualRed after the fourth (epoch 300 ms) and in
Countdown50 after the fifth (epoch 400 ms), while the debounced switch values stay the
same: the mode and the epoch change on every pass. -/
theorem held_switches_alternate :
    run 64 (start 0) (heldRedCountdownRun.take 2) = some heldInRed ∧
      (run 64 (start 0) (heldRedCountdownRun.take 3)).map
          (fun s => (s.stateHandler, s.startTime, s.powerSwitch.isOn,
            s.manualRainbowSwitch.isOn, s.manualRedSwitch.isOn, s.countdown50Switch.isOn))
        = some (some Mode.Countdown50, 200, true, false, true, true) ∧
      (run 64 (start 0) (heldRedCountdownRun.take 4)).map
          (fun s => (s.stateHandler, s.startTime, s.powerSwitch.isOn,
            s.manualRainbowSwitch.isOn, s.manualRedSwitch.isOn, s.countdown50Switch.isOn))
        = some (some Mode.ManualRed, 300, true, false, true, true) ∧
      (run 64 (start 0) (heldRedCountdownRun.take 5)).map
          (fun s => (s.stateHandler, s.startTime, s.powerSwitch.isOn,
            s.manualRainbowSwitch.isOn, s.manualRedSwitch.isOn, s.countdown50Switch.isOn))
        = some (some Mode.Countdown50, 400, true, false, true, true) := by
  refine ⟨by decide, by decide, by decide, by decide⟩

/-- C20 (amended): on a pass whose updated debounced power switch is on, the next mode is
fixed by the check order of the handler of the current mode, applied to the updated
debounced select switches. From Sleep: ManualRed if red-select is on, else Countdown50 if
countdown-select is on, else ManualRainbow. From ManualRainbow: ManualRed if red-select is
on, else Countdown50 if countdown-select is on, else unchanged. From ManualRed:
ManualRainbow if rainbow-select is on, else Countdown50 if countdown-select is on, else
unchanged. From Countdown50, on a pass that reaches its transition block: ManualRainbow if
rainbow-select is on, else ManualRed if red-select is on, else unchanged. Hence with two or
more select switches on, every such pass in a timed mode changes the mode: it does not
settle. -/
theorem select_resolution_per_mode (fuel : Nat) (csm : ClockStateMachine) (i : TickIn)
    (hp : (updateButtons csm i).powerSwitch.isOn = true) :
    (csm.stateHandler = some Mode.Sleep →
      ∃ s, loop fuel csm i = some s ∧
        s.stateHandler = some
          (if (updateButtons csm i).manualRedSwitch.isOn then Mode.ManualRed
           else if (updateButtons csm i).countdown50Switch.isOn then Mode.Countdown50
           else Mode.ManualRainbow)) ∧
      (csm.stateHandler = some Mode.ManualRainbow →
        ∃ s, loop fuel csm i = some s ∧
          s.stateHandler = some
            (if (updateButtons csm i).manualRedSwitch.isOn then Mode.ManualRed
             else if (updateButtons csm i).countdown50Switch.isOn then Mode.Countdown50
             else Mode.ManualRainbow)) ∧
      (csm.stateHandler = some Mode.ManualRed →
        ∃ s, loop fuel csm i = some s ∧
          s.stateHandler = some
            (if (updateButtons csm i).manualRainbowSwitch.isOn then Mode.ManualRainbow
             else if (updateButtons csm i).countdown50Switch.isOn then Mode.Countdown50
             else Mode.ManualRed)) ∧
      (csm.stateHandler = some Mode.Countdown50 →
        reachesTransitions fuel (updateButtons csm i) i →
        ∃ s, loop fuel csm i = some s ∧
          s.stateHandler = some
            (if (updateButtons csm i).manualRainbowSwitch.isOn then Mode.ManualRainbow
             else if (updateButtons csm i).manualRedSwitch.isOn then Mode.ManualRed
             else Mode.Countdown50)) ∧
      (((updateButtons csm i).manualRainbowSwitch.isOn = true ∧
            (updateButtons csm i).manualRedSwitch.isOn = true) ∨
          ((updateButtons csm i).manualRainbowSwitch.isOn = true ∧
            (updateButtons csm i).countdown50Switch.isOn = true) ∨
          ((updateButtons csm i).manualRedSwitch.isOn = true ∧
            (updateButtons csm i).countdown50Switch.isOn = true) →
        (csm.stateHandler = some Mode.ManualRainbow ∨ csm.stateHandler = some Mode.ManualRed ∨
          (csm.stateHandler = some Mode.Countdown50 ∧
            reachesTransitions fuel (updateButtons csm i) i)) →
        ∃ s, loop fuel csm i = some s ∧ s.stateHandler ≠ csm.stateHandler) := by
  have hSleep : csm.stateHandler = some Mode.Sleep →
      ∃ s, loop fuel csm i = some s ∧
        s.stateHandler = some
          (if (updateButtons csm i).manualRedSwitch.isOn then Mode.ManualRed
           else if (updateButtons csm i).countdown50Switch.isOn then Mode.Countdown50
           else Mode.ManualRainbow) := by
    intro h
    exact ⟨_, loop_sleep fuel csm i h, stateSleep_mode _ i hp⟩
  have hRainbow : csm.stateHandler = some Mode.ManualRainbow →
      ∃ s, loop fuel csm i = some s ∧
        s.stateHandler = some
          (if (updateButtons csm i).manualRedSwitch.isOn then Mode.ManualRed
           else if (updateButtons csm i).countdown50Switch.isOn then Mode.Countdown50
           else Mode.ManualRainbow) := by
    intro h
    refine ⟨_, (loop_timed fuel csm i).1 h, ?_⟩
    rw [stateManualRainbow_mode _ i hp, updateButtons_stateHandler, h]
    split_ifs <;> rfl
  have hRed : csm.stateHandler = some Mode.ManualRed →
      ∃ s, loop fuel csm i = some s ∧
        s.stateHandler = some
          (if (updateButtons csm i).manualRainbowSwitch.isOn then Mode.ManualRainbow
           else if (updateButtons csm i).countdown50Switch.isOn then Mode.Countdown50
           else Mode.ManualRed) := by
    intro h
    refine ⟨_, (loop_timed fuel csm i).2 h, ?_⟩
    rw [stateManualRed_mode _ i hp, updateButtons_stateHandler, h]
    split_ifs <;> rfl
  have hCd : csm.stateHandler = some Mode.Countdown50 →
      reachesTransitions fuel (updateButtons csm i) i →
      ∃ s, loop fuel csm i = some s ∧
        s.stateHandler = some
          (if (updateButtons csm i).manualRainbowSwitch.isOn then Mode.ManualRainbow
           else if (updateButtons csm i).manualRedSwitch.isOn then Mode.ManualRed
           else Mode.Countdown50) := by
    intro h hr
    obtain ⟨s, hs, hmode⟩ := stateCountdown50_mode fuel (updateButtons csm i) i hp hr
    refine ⟨s, by rw [loop_countdown fuel csm i h]; exact hs, ?_⟩
    rw [hmode, updateButtons_stateHandler, h]
    split_ifs <;> rfl
  refine ⟨hSleep, hRainbow, hRed, hCd, ?_⟩
  intro htwo hmode
  rcases hmode with h | h | ⟨h, hr⟩
  · obtain ⟨s, hs, hm⟩ := hRainbow h
    refine ⟨s, hs, ?_⟩
    rw [hm, h]
    rcases htwo with ⟨-, h2⟩ | ⟨-, h2⟩ | ⟨h1, -⟩ <;> split_ifs <;> simp_all
  · obtain ⟨s, hs, hm⟩ := hRed h
    refine ⟨s, hs, ?_⟩
    rw [hm, h]
    rcases htwo with ⟨h1, -⟩ | ⟨h1, -⟩ | ⟨-, h2⟩ <;> split_ifs <;> simp_all
  · obtain ⟨s, hs, hm⟩ := hCd h hr
    refine ⟨s, hs, ?_⟩
    rw [hm, h]
    rcases htwo with ⟨h1, -⟩ | ⟨h1, -⟩ | ⟨h1, -⟩ <;> split_ifs <;> simp_all

theorem select_resolution_per_mode_witness :
    (updateButtons heldInRed (tickAt 200 true false true true)).powerSwitch.isOn = true ∧
      ∃ s, loop 0 heldInRed (tickAt 200 true false true true) = some s ∧
        s.stateHandler = some Mode.Countdown50 :=
  ⟨by decide,
    match (select_resolution_per_mode 0 heldInRed (tickAt 200 true false true true)
      (by decide)).2.2.1 rfl with
    | ⟨s, hs, hm⟩ => ⟨s, hs, hm⟩⟩

/-! ## Wheel position in ManualRainbow -/

theorem wheelPos_eq (x : Nat) : wheelPos x = (x % 240) * 17 / 16 := by
  unfold wheelPos
  omega

theorem wheelPos_period (x : Nat) : wheelPos (x + 240) = wheelPos x := by
  unfold wheelPos
  rw [Nat.add_mod_right]

theorem wheelPos_le (x : Nat) : wheelPos x ≤ 253 := by
  rw [wheelPos_eq]
  have h : x % 240 < 240 := Nat.mod_lt _ (by decide)
  generalize x % 240 = y at h
  omega

/-- C21 fails on the code: the wheel position is computed from `millis() / 1000`, the time
since start-up, not from the time since the epoch. After `rainbowResetRun` the clock is in
ManualRainbow with the epoch just reset to 100000 ms; the pass at that same time publishes
elapsed time 0:00 with the colour of wheel position 106 (from 100 s of up-time), not of
position 0. As a function of the up-time in whole seconds the position is
`floor((x mod 240) * 17 / 16)`, has period 240 s and lies in 0..253. -/
theorem wheel_position_ignores_epoch :
    run 0 (start 0) rainbowResetRun = some rainbowJustReset ∧
      rainbowJustReset.startTime = 100000 ∧
      (loop 0 rainbowJustReset (tickAt 100000 true false false false)).map
          (fun s => s.mesh.getLast?)
        = some (some "-1,0,0,0,3,192,0,63".toList) ∧
      wheelPos (100000 / 1000) = 106 ∧
      calculateRainbowColor 106 = (192, 0, 63) ∧
      calculateRainbowColor (wheelPos ((100000 - 100000) / 1000)) = (0, 255, 0) ∧
      (∀ x : Nat, wheelPos x = (x % 240) * 17 / 16) ∧
      (∀ x : Nat, wheelPos (x + 240) = wheelPos x) ∧
      (∀ x : Nat, wheelPos x ≤ 253) := by
  exact ⟨by decide, rfl, by decide, by decide, by decide, by decide, wheelPos_eq,
    wheelPos_period, wheelPos_le⟩

/-! ## Termination of the round search -/

theorem countdownElapsedSec_of_le (now epoch : Nat) (h1 : epoch ≤ now)
    (h2 : now < 4294967296) :
    countdownElapsedSec now epoch = (((now - epoch) / 1000 : Nat) : Int) - 30 := by
  rw [countdownElapsedSec_eq, u32sub_of_le now epoch h1 h2]

theorem roundSearch_exits_within (e : Int) (hlo : -30 ≤ e) (h1 : e < 1830) :
    ∃ T d, roundSearch 61 e 0 60 = some (T, d) := by
  by_cases hneg : e < 0
  · exact ⟨0, 60, roundSearch_preroll e hneg 60⟩
  · obtain ⟨j, hj, hjlo, hjhi⟩ := exists_round e (by omega) h1
    have hr := roundSearch_round e j hj hjlo hjhi 61 0 (Nat.zero_le _)
    rw [roundStart_zero] at hr
    simp only [Nat.cast_zero, sub_zero] at hr
    rw [if_pos (by omega)] at hr
    exact ⟨_, _, hr⟩

theorem roundSearch_exits_within_40 (e : Int) (hlo : -30 ≤ e) (h1 : e < 1620) :
    ∃ T d, roundSearch 40 e 0 60 = some (T, d) := by
  by_cases hneg : e < 0
  · exact ⟨0, 60, roundSearch_preroll e hneg 39⟩
  · obtain ⟨k, -, hs, -⟩ := roundSearch_active e (by omega) h1 40 (le_refl _)
    exact ⟨_, _, hs⟩

/-- From 1830 s on the search does not exit before the running total has come down to the
bottom of the `int32_t` range: each pass lowers `2 totalSec + (d + 1)^2` by one only. -/
theorem roundSearch_late_stall (e : Int) (he : 1830 ≤ e) :
    ∀ (fuel : Nat) (T d : Int), -128 ≤ d → d ≤ 127 → -2147483648 ≤ T →
      2 * T + d * (d + 1) ≤ 3660 →
      (fuel : Int) + 16510 ≤ 2 * T + (d + 1) * (d + 1) + 4294967423 →
      roundSearch fuel e T d = none := by
  intro fuel
  induction fuel with
  | zero =>
    intro T d _ _ _ _ _
    rfl
  | succ n ih =>
    intro T d h0 h1 hT hinv hN
    have hsq : 0 ≤ d * (d - 1) := by
      rcases le_or_lt d 0 with hd | hd
      · exact mul_nonneg_of_nonpos_of_nonpos hd (by omega)
      · exact mul_nonneg (by omega) (by omega)
    have hTd : T + d ≤ 1830 := by nlinarith
    have hN1 : (n : Int) + 1 + 16510 ≤ 2 * T + (d + 1) * (d + 1) + 4294967423 := by
      have := hN
      push_cast at this
      exact this
    have hn : (0 : Int) ≤ (n : Int) := Int.ofNat_nonneg n
    have hov : -2147483648 ≤ T + d := by
      by_contra hc
      have hd0 : d ≤ -1 := by omega
      have hdd : d * d ≤ 16384 := by nlinarith
      nlinarith
    rw [roundSearch, wrapI32_of_bounds _ hov (by omega), if_pos (by omega)]
    by_cases hw : d = -128
    · subst hw
      have h8 : toI8 (-128 - 1) = 127 := by decide
      rw [h8]
      refine ih _ _ (by omega) (by omega) hov (by omega) ?_
      norm_num at hN1 ⊢
      omega
    · rw [toI8_of_bounds _ (by omega) (by omega)]
      refine ih _ _ (by omega) (by omega) hov (by nlinarith) ?_
      nlinarith

/-- C22: for every epoch and every 32-bit `now` at or after it, the round search exits:
4294971145 tests of its condition suffice for every elapsed value. When
`now - epoch < 1650000` (the pre-roll and the schedule) it exits within 40 tests, and when
`now - epoch < 1860000` within 61. From 1860000 ms on the condition stays true while the
running total is representable, so the exit comes only where `totalSec + initialTime`
leaves the `int32_t` range and wraps (the 8-bit duration has wrapped from -128 to 127 many
times by then): the search has not exited after 4294954634 tests. -/
theorem round_search_terminates (now epoch : Nat) (h1 : epoch ≤ now)
    (h2 : now < 4294967296) :
    (∀ fuel : Nat, 4294971145 ≤ fuel →
        ∃ T d, roundSearch fuel (countdownElapsedSec now epoch) 0 60 = some (T, d)) ∧
      (now - epoch < 1650000 →
        ∃ T d, roundSearch 40 (countdownElapsedSec now epoch) 0 60 = some (T, d)) ∧
      (now - epoch < 1860000 →
        ∃ T d, roundSearch 61 (countdownElapsedSec now epoch) 0 60 = some (T, d)) ∧
      (1860000 ≤ now - epoch →
        roundSearch 4294954634 (countdownElapsedSec now epoch) 0 60 = none) := by
  have hb := countdownElapsedSec_bounds now epoch
  refine ⟨?_, ?_, ?_, ?_⟩
  · intro fuel hf
    obtain ⟨⟨T, d⟩, h⟩ :=
      roundSearch_terminates (countdownElapsedSec now epoch) (by omega) fuel hf
    exact ⟨T, d, h⟩
  · intro h3
    rw [countdownElapsedSec_of_le now epoch h1 h2]
    exact roundSearch_exits_within_40 _ (by omega) (by omega)
  · intro h3
    rw [countdownElapsedSec_of_le now epoch h1 h2]
    exact roundSearch_exits_within _ (by omega) (by omega)
  · intro h3
    rw [countdownElapsedSec_of_le now epoch h1 h2]
    exact roundSearch_late_stall _ (by omega) _ 0 60 (by omega) (by omega) (by omega)
      (by norm_num) (by norm_num)

theorem round_search_terminates_witness :
    100 ≤ 1860100 ∧ 1860100 < 4294967296 ∧
      (∃ T d, roundSearch 4294971145 (countdownElapsedSec 1860100 100) 0 60 = some (T, d)) ∧
      roundSearch 4294954634 (countdownElapsedSec 1860100 100) 0 60 = none :=
  ⟨by decide, by decide,
    (round_search_terminates 1860100 100 (by decide) (by decide)).1 4294971145 (le_refl _),
    (round_search_terminates 1860100 100 (by decide) (by decide)).2.2.2 (by decide)⟩

/-! ## The pre-roll -/

/-- C23: for every epoch and every 32-bit `now` with `0 <= now - epoch < 30000`, the round
search exits at once in round 0 (duration 60); the time in the round is
`30 + floor(ms / 1000)`, which is not below 22, so the frame is that of the main phase; it
shows `v = 30 - floor(ms / 1000)`, a value from 30 down to 1, in the third and fourth digit,
the first digit is blank while `v > 10` and 1 once `v <= 10`, the second digit is blank, and
the colour is `(100,255,0)` for `v > 6`, `(255,255,0)` for `v > 3`, else `(255,100,0)`. -/
theorem preroll_frame (now epoch fuel : Nat) (h1 : epoch ≤ now) (h2 : now < 4294967296)
    (h3 : now - epoch < 30000) :
    roundSearch (fuel + 1) (countdownElapsedSec now epoch) 0 60 = some (0, 60) ∧
      toU32 (60 + countdownElapsedSec now epoch) = 30 + (now - epoch) / 1000 ∧
      ¬ (30 + (now - epoch) / 1000 < 22) ∧
      1 ≤ 30 - (now - epoch) / 1000 ∧ 30 - (now - epoch) / 1000 ≤ 30 ∧
      countdownFrame now (countdownElapsedSec now epoch) 0 60
        = { d1 := if 30 - (now - epoch) / 1000 ≤ 10 then 1 else -1
            d2 := -1
            d3 := (((30 - (now - epoch) / 1000) / 10 : Nat) : Int)
            d4 := (((30 - (now - epoch) / 1000) % 10 : Nat) : Int)
            dot := if now % 1000 < 500 then 3 else 4
            r := if 30 - (now - epoch) / 1000 > 6 then 100 else 255
            g := if 30 - (now - epoch) / 1000 > 3 then 255 else 100
            b := 0 } := by
  have he : countdownElapsedSec now epoch = -((30 - (now - epoch) / 1000 : Nat) : Int) := by
    rw [countdownElapsedSec_of_le now epoch h1 h2]
    omega
  refine ⟨?_, ?_, by omega, by omega, by omega, ?_⟩
  · exact roundSearch_preroll _ (by rw [he]; omega) fuel
  · rw [he]
    unfold toU32
    omega
  · rw [he]
    exact countdownFrame_preroll now _ (by omega) (by omega)

theorem preroll_frame_witness :
    roundSearch 1 (countdownElapsedSec 25100 100) 0 60 = some (0, 60) ∧
      countdownFrame 25100 (countdownElapsedSec 25100 100) 0 60
        = { d1 := if 30 - (25100 - 100) / 1000 ≤ 10 then 1 else -1
            d2 := -1
            d3 := (((30 - (25100 - 100) / 1000) / 10 : Nat) : Int)
            d4 := (((30 - (25100 - 100) / 1000) % 10 : Nat) : Int)
            dot := if 25100 % 1000 < 500 then 3 else 4
            r := if 30 - (25100 - 100) / 1000 > 6 then 100 else 255
            g := if 30 - (25100 - 100) / 1000 > 3 then 255 else 100
            b := 0 } :=
  ⟨(preroll_frame 25100 100 0 (by decide) (by decide) (by decide)).1,
    (preroll_frame 25100 100 0 (by decide) (by decide) (by decide)).2.2.2.2.2⟩

end PaceClock
